import Mathlib

/-!
Verification of the aitube2 request-dispatch core.

This file gives a shallow embedding, in Lean 4, of the concurrent
request-dispatch and resource-pool subsystem of the aitube2 server
(`api.py`, `api_core.py`):

* the bounded chat-room / event-log histories (`ChatRoom.add_message`,
  `VideoGenerationAPI._add_event`),
* the chat handlers (`handle_chat_message`, `handle_join_chat`,
  `handle_leave_chat`) including the CPython semantics of mutating a
  `set` while iterating it,
* the endpoint pool (`EndpointManager.get_endpoint`) as a transition
  system over the states observable at asyncio suspension points,
* the three per-connection lane workers (`process_chat_queue`,
  `process_search_queue`, `process_video_queue` with its helper
  `process_single_request`).

External collaborators (the Hugging Face inference calls, the HTTP
transport of `send_json`, and wall-clock time) are modelled as oracle
parameters: each embedded function takes the outcome of the collaborator
call as an input instead of performing I/O.  `VIDEO_ROUND_ROBIN_ENDPOINT_URLS`
is loaded from configuration outside the translated sources, so every
definition that depends on it is parametric in the list of URLs.
-/

namespace Aitube2

/-! ## Bounded histories (api_core.py: ChatRoom.add_message, _add_event)

Both `ChatRoom.add_message` and `VideoGenerationAPI._add_event` run
`xs.append(m)` followed by `xs.pop(0)` when `len(xs) > cap`. -/

/-- Append `m` and evict the oldest entry when the result exceeds `cap`:
the common body of `ChatRoom.add_message` (cap 100) and
`VideoGenerationAPI._add_event` (cap 50). -/
def boundedAppend (cap : Nat) (l : List α) (m : α) : List α :=
  let l' := l ++ [m]
  if cap < l'.length then l'.tail else l'

/-! ## Data model for the chat subsystem -/

/-- The fields of an inbound chat-lane request envelope that the
translated code reads (`data.get('videoId')` and friends).  Python
`dict.get` returns `None` for an absent key, hence `Option`. -/
structure ChatData where
  videoId : Option String := none
  requestId : Option String := none
  username : Option String := none
  content : Option String := none
deriving DecidableEq, Repr

/-- A structured entry of `self.video_events[video_id]`.  Chat events
carry `username`/`data`, stream-clip events carry `caption`. -/
structure VideoEvent where
  time : String := ""
  event : String := ""
  username : Option String := none
  data : Option String := none
  caption : Option String := none
deriving DecidableEq, Repr

/-- A response envelope (or broadcast payload) written to a websocket.
Optional fields default to "key absent". -/
structure Response where
  action : String
  requestId : Option String := none
  success : Bool
  error : Option String := none
  message : Option ChatData := none
  messages : List ChatData := []
  result : Option String := none
  video : Option String := none
deriving DecidableEq, Repr

/-- One chat room (api_core.py:158-170): ordered message history plus the
set of member connections.  The Python `set` is modelled as a duplicate-free
list in the (arbitrary) order the CPython set iterator would yield. -/
structure ChatRoom (C : Type) where
  messages : List ChatData := []
  connected_clients : List C := []

/-- `ChatRoom.max_history` (api_core.py:162). -/
def ChatRoom.max_history : Nat := 100

/-- `ChatRoom.add_message` (api_core.py:164-167). -/
def ChatRoom.add_message (r : ChatRoom C) (m : ChatData) : ChatRoom C :=
  { r with messages := boundedAppend ChatRoom.max_history r.messages m }

/-- `ChatRoom.get_recent_messages` (api_core.py:169-170): Python
`self.messages[-limit:]`, which is the whole list when `limit = 0`. -/
def ChatRoom.get_recent_messages (r : ChatRoom C) (limit : Nat := 50) : List ChatData :=
  if limit = 0 then r.messages else r.messages.drop (r.messages.length - limit)

/-- `VideoGenerationAPI.event_history_limit` (api_core.py:179). -/
def event_history_limit : Nat := 50

/-- The mutable registries of `VideoGenerationAPI` that the chat claims
touch.  The two `defaultdict`s are modelled as total functions whose
default values are the empty room / empty event list. -/
structure ApiState (C : Type) where
  chat_rooms : String → ChatRoom C
  video_events : String → List VideoEvent

/-- The registries as `VideoGenerationAPI.__init__` leaves them: every
topic maps to a fresh empty room, every content id to an empty log. -/
def initApiState (C : Type) : ApiState C :=
  { chat_rooms := fun _ => {}, video_events := fun _ => [] }

/-- `VideoGenerationAPI._add_event` (api_core.py:182-187). -/
def _add_event [DecidableEq C] (st : ApiState C) (video_id : String) (e : VideoEvent) :
    ApiState C :=
  { st with
    video_events :=
      Function.update st.video_events video_id
        (boundedAppend event_history_limit (st.video_events video_id) e) }

/-- Python truthiness test `if not video_id:` on a JSON string field:
true when the key is absent (`None`) or the string is empty. -/
def isFalsyStr : Option String → Bool
  | none => true
  | some s => s = ""

/-- A Python exception value, as far as the translated code inspects it:
its class and its `str(e)` message. -/
inductive PyError
  | runtimeError (msg : String)
  | timeoutError (msg : String)
  | exception (msg : String)
deriving DecidableEq, Repr

/-- The `str(e)` text of an exception. -/
def PyError.msg : PyError → String
  | .runtimeError m => m
  | .timeoutError m => m
  | .exception m => m

/-! ## Broadcast loop of handle_chat_message (api_core.py:550-560)

The source iterates the Python set `room.connected_clients` and, when a
`send_json` to a member raises, removes that member from the very set
being iterated.  A CPython set iterator rechecks the set's size on every
`__next__` call (including the final one that would raise
`StopIteration`), so the first removal makes the next iteration step
raise `RuntimeError: Set changed size during iteration`.  `send_ok c`
is the oracle for whether `client.send_json(...)` succeeds for `c`. -/

/-- Outcome of the `for client in room.connected_clients:` loop:
the members that received the broadcast (in iteration order), the member
removed by the failure handler (if any), and whether the iterator raised
`RuntimeError` because the set was mutated under it. -/
structure BroadcastOut (C : Type) where
  delivered : List C
  removed : Option C
  raised : Bool
deriving DecidableEq, Repr

/-- The broadcast loop of `handle_chat_message`.  Each delivered member
receives the payload `{'action': 'chat_message', 'broadcast': True,
**message_data}`; a failed send removes the member and the very next
iterator step raises. -/
def broadcast_clients [DecidableEq C] (send_ok : C → Bool) (ws : C) :
    List C → BroadcastOut C
  | [] => ⟨[], none, false⟩
  | c :: rest =>
    if c = ws then
      broadcast_clients send_ok ws rest
    else if send_ok c then
      let r := broadcast_clients send_ok ws rest
      ⟨c :: r.delivered, r.removed, r.raised⟩
    else
      ⟨[], some c, true⟩

/-! ## Chat handlers (api_core.py:525-614) -/

/-- Result of `handle_chat_message`: the returned dict (or the exception
that escaped the handler), the registries after the call (Python
mutations are not rolled back by an exception), and the list of members
the broadcast actually reached. -/
structure ChatMsgOut (C : Type) where
  result : Except PyError Response
  state : ApiState C
  delivered : List C

/-- `VideoGenerationAPI.handle_chat_message` (api_core.py:525-567).
`now` is the oracle for `datetime.datetime.utcnow().isoformat() + "Z"`;
`send_ok` is the oracle for the per-member `client.send_json`.  The
`message_data` broadcast and stored is `data` minus its transient `_ws`
key, which the model does not carry, so it is `data` itself. -/
def handle_chat_message [DecidableEq C] (send_ok : C → Bool) (now : String)
    (st : ApiState C) (data : ChatData) (ws : C) : ChatMsgOut C :=
  let video_id := data.videoId
  let request_id := data.requestId
  if isFalsyStr video_id then
    { result := .ok { action := "chat_message", requestId := request_id,
                      success := false, error := some "No video ID provided" }
      state := st
      delivered := [] }
  else
    let vid := video_id.getD ""
    let st1 := _add_event st vid
      { time := now, event := "new_chat_message",
        username := some (data.username.getD "Anonymous"),
        data := some (data.content.getD "") }
    let room := st1.chat_rooms vid
    let message_data := data
    let room1 := room.add_message message_data
    let out := broadcast_clients send_ok ws room1.connected_clients
    let room2 :=
      { room1 with
        connected_clients :=
          match out.removed with
          | some c => room1.connected_clients.erase c
          | none => room1.connected_clients }
    let st2 := { st1 with chat_rooms := Function.update st1.chat_rooms vid room2 }
    { result :=
        if out.raised then
          .error (.runtimeError "Set changed size during iteration")
        else
          .ok { action := "chat_message", requestId := request_id,
                success := true, message := some message_data }
      state := st2
      delivered := out.delivered }

/-- Python `set.add`: insert the element unless already present. -/
def pySetAdd [DecidableEq C] (s : List C) (c : C) : List C :=
  if c ∈ s then s else s ++ [c]

/-- `VideoGenerationAPI.handle_join_chat` (api_core.py:569-591). -/
def handle_join_chat [DecidableEq C] (st : ApiState C) (data : ChatData) (ws : C) :
    Response × ApiState C :=
  let video_id := data.videoId
  let request_id := data.requestId
  if isFalsyStr video_id then
    ({ action := "join_chat", requestId := request_id,
       success := false, error := some "No video ID provided" }, st)
  else
    let vid := video_id.getD ""
    let room := st.chat_rooms vid
    let room1 := { room with connected_clients := pySetAdd room.connected_clients ws }
    let recent_messages := room1.get_recent_messages
    ({ action := "join_chat", requestId := request_id,
       success := true, messages := recent_messages },
     { st with chat_rooms := Function.update st.chat_rooms vid room1 })

/-- `VideoGenerationAPI.handle_leave_chat` (api_core.py:593-614). -/
def handle_leave_chat [DecidableEq C] (st : ApiState C) (data : ChatData) (ws : C) :
    Response × ApiState C :=
  let video_id := data.videoId
  let request_id := data.requestId
  if isFalsyStr video_id then
    ({ action := "leave_chat", requestId := request_id,
       success := false, error := some "No video ID provided" }, st)
  else
    let vid := video_id.getD ""
    let room := st.chat_rooms vid
    let room1 :=
      if ws ∈ room.connected_clients then
        { room with connected_clients := room.connected_clients.erase ws }
      else room
    ({ action := "leave_chat", requestId := request_id, success := true },
     { st with chat_rooms := Function.update st.chat_rooms vid room1 })

/-! ## Lane workers (api.py)

Each lane worker is a loop "pull next item, process it, send the
response".  The websocket `send_json` is modelled by an oracle
`send_ws : Response → Option String`: `none` means the send succeeded,
`some m` means it raised an exception whose `str` is `m`.  For every
item the step records the responses whose send was attempted, the
responses actually written to the connection, and the exception (if
any) that escaped all the `except` clauses and would kill the worker
task. -/

/-- Observable output of processing one queue item (or a whole queue):
`attempts` are the payloads passed to `ws.send_json` in order, `emitted`
are those whose send succeeded, and `uncaught` is the exception that
escaped the item's outermost `except`, terminating the worker loop. -/
structure StepOut where
  attempts : List Response
  emitted : List Response
  uncaught : Option PyError := none
deriving DecidableEq, Repr

/-! ### Search lane (api.py:85-154) -/

/-- The fields of a search request the worker reads. -/
structure SearchData where
  requestId : Option String := none
  query : Option String := none
  searchCount : Nat := 0
  attemptCount : Nat := 0
deriving DecidableEq, Repr

/-- Outcome of the external collaborator call `api.search_video(...)`
(api_core.py:197-280, out of scope): a result record (payload left
opaque), `None`, or a raised exception. -/
inductive SearchOutcome
  | found (result : String)
  | notFound
  | raised (msg : String)
deriving DecidableEq, Repr

/-- The result dict built for one search item (api.py:89-136): empty
query (after `strip()`) is a validation error; otherwise the
`search_video` outcome is mapped to a success, not-found, or error
response, all carrying the item's request id. -/
def search_item_result (search_video : SearchData → SearchOutcome)
    (data : SearchData) : Response :=
  let request_id := data.requestId
  let query := (data.query.getD "").trim
  if query = "" then
    { action := "search", requestId := request_id, success := false,
      error := some "No search query provided" }
  else
    match search_video data with
    | .found r =>
      { action := "search", requestId := request_id, success := true,
        result := some r }
    | .notFound =>
      { action := "search", requestId := request_id, success := false,
        error := some "No results found" }
    | .raised m =>
      { action := "search", requestId := request_id, success := false,
        error := some ("Search error: " ++ m) }

/-- One iteration of `process_search_queue` (api.py:87-154): build the
result, send it; a send failure is caught by the outer `except`, which
builds an internal-error response for the same request id and tries to
send that; a failure of the second send is caught and logged
(api.py:150-151), so no exception ever escapes the iteration. -/
def search_step (search_video : SearchData → SearchOutcome)
    (send_ws : Response → Option String) (data : SearchData) : StepOut :=
  let result := search_item_result search_video data
  match send_ws result with
  | none => { attempts := [result], emitted := [result] }
  | some m =>
    let error_response : Response :=
      { action := "search", requestId := data.requestId, success := false,
        error := some ("Internal server error: " ++ m) }
    match send_ws error_response with
    | none => { attempts := [result, error_response], emitted := [error_response] }
    | some _ => { attempts := [result, error_response], emitted := [] }

/-- The `while True` loop of `process_search_queue`, run over the items
a connection enqueues: iterate `search_step`; if an iteration let an
exception escape, the worker task dies and the remaining items are
never processed. -/
def process_search_queue (search_video : SearchData → SearchOutcome)
    (send_ws : Response → Option String) : List SearchData → StepOut
  | [] => { attempts := [], emitted := [] }
  | d :: ds =>
    let o := search_step search_video send_ws d
    match o.uncaught with
    | some e => { attempts := o.attempts, emitted := o.emitted, uncaught := some e }
    | none =>
      let r := process_search_queue search_video send_ws ds
      { attempts := o.attempts ++ r.attempts, emitted := o.emitted ++ r.emitted,
        uncaught := r.uncaught }

/-! ### Chat lane (api.py:156-181) -/

/-- The three actions the router sends to the chat queue
(api.py:284-285). -/
inductive ChatAction
  | join_chat
  | chat_message
  | leave_chat
deriving DecidableEq, Repr

/-- The `data['action']` string of a chat item. -/
def ChatAction.name : ChatAction → String
  | .join_chat => "join_chat"
  | .chat_message => "chat_message"
  | .leave_chat => "leave_chat"

/-- One chat-queue item: its action and envelope. -/
structure ChatItem where
  action : ChatAction
  data : ChatData
deriving DecidableEq, Repr

/-- One iteration of `process_chat_queue` (api.py:158-181): dispatch to
the matching handler; send the result; any exception from the handler
(`handle_chat_message` can raise) or from the send is caught and turned
into a `Chat error: ...` response for the item's request id, whose own
send failure is caught and logged (api.py:178-179).  Returns the
registries after the iteration together with the send log. -/
def chat_step [DecidableEq C] (send_ok : C → Bool)
    (send_ws : Response → Option String) (now : String)
    (st : ApiState C) (item : ChatItem) (ws : C) : ApiState C × StepOut :=
  let handled : Except PyError Response × ApiState C :=
    match item.action with
    | .join_chat =>
      let (r, st') := handle_join_chat st item.data ws
      (.ok r, st')
    | .chat_message =>
      let o := handle_chat_message send_ok now st item.data ws
      (o.result, o.state)
    | .leave_chat =>
      let (r, st') := handle_leave_chat st item.data ws
      (.ok r, st')
  match handled with
  | (.ok result, st') =>
    match send_ws result with
    | none => (st', { attempts := [result], emitted := [result] })
    | some m =>
      let error_response : Response :=
        { action := item.action.name, requestId := item.data.requestId,
          success := false, error := some ("Chat error: " ++ m) }
      match send_ws error_response with
      | none => (st', { attempts := [result, error_response], emitted := [error_response] })
      | some _ => (st', { attempts := [result, error_response], emitted := [] })
  | (.error e, st') =>
    let error_response : Response :=
      { action := item.action.name, requestId := item.data.requestId,
        success := false, error := some ("Chat error: " ++ e.msg) }
    match send_ws error_response with
    | none => (st', { attempts := [error_response], emitted := [error_response] })
    | some _ => (st', { attempts := [error_response], emitted := [] })

/-- The `while True` loop of `process_chat_queue`, run over the items a
connection enqueues, threading the shared registries through the
iterations. -/
def process_chat_queue [DecidableEq C] (send_ok : C → Bool)
    (send_ws : Response → Option String) (now : String) (ws : C) :
    ApiState C → List ChatItem → ApiState C × StepOut
  | st, [] => (st, { attempts := [], emitted := [] })
  | st, item :: items =>
    let (st', o) := chat_step send_ok send_ws now st item ws
    match o.uncaught with
    | some e => (st', { attempts := o.attempts, emitted := o.emitted, uncaught := some e })
    | none =>
      let (st'', r) := process_chat_queue send_ok send_ws now ws st' items
      (st'', { attempts := o.attempts ++ r.attempts, emitted := o.emitted ++ r.emitted,
               uncaught := r.uncaught })

/-! ### Generation lane: one spawned task (api.py:188-219) -/

/-- `process_single_request` inside `process_video_queue`: `outcome` is
the oracle for `await api.generate_video(...)` — either the video data
URI or the exception it raised (endpoint-pool `TimeoutError` included).
Any failure, of the generation call or of the send, is caught and
reported as a `Video generation error: ...` response for the same
request id; a failure of that error send is caught and logged
(api.py:216-217), so the task never propagates an exception into the
driving loop. -/
def process_single_request (outcome : Except PyError String)
    (send_ws : Response → Option String) (request_id : Option String) : StepOut :=
  match outcome with
  | .ok video_data =>
    let result : Response :=
      { action := "generate_video", requestId := request_id, success := true,
        video := some video_data }
    match send_ws result with
    | none => { attempts := [result], emitted := [result] }
    | some m =>
      let error_response : Response :=
        { action := "generate_video", requestId := request_id, success := false,
          error := some ("Video generation error: " ++ m) }
      match send_ws error_response with
      | none => { attempts := [result, error_response], emitted := [error_response] }
      | some _ => { attempts := [result, error_response], emitted := [] }
  | .error e =>
    let error_response : Response :=
      { action := "generate_video", requestId := request_id, success := false,
        error := some ("Video generation error: " ++ e.msg) }
    match send_ws error_response with
    | none => { attempts := [error_response], emitted := [error_response] }
    | some _ => { attempts := [error_response], emitted := [] }

/-! ## Endpoint pool (api_core.py:104-156)

`EndpointManager.get_endpoint` is an async context manager; the pool is
shared by all generation tasks of all connections.  The transition
system below describes the states observable at asyncio suspension
points.  Granularity: under asyncio's cooperative scheduler a task can
only be interleaved (or cancelled) at an `await` that actually
suspends.  Inside `get_endpoint`, `self.lock` is only ever held across
code whose awaits never suspend (`Queue.put` on an unbounded queue
returns synchronously), so `Lock.acquire` itself never suspends, and
the region from `endpoint_queue.get_nowait()` to `break` (or to the
re-`put`) executes atomically; the suspension points are the
`asyncio.sleep(0.5)` retry, the `yield endpoint`, and entry/exit.
Timeouts and cancellations are modelled as nondeterministically enabled
transitions. -/

/-- Where one caller of `get_endpoint` stands.  `looping ev` is the top
of the acquisition loop (equivalently, parked in the `sleep(0.5)`
retry) with the local variable `endpoint` holding `ev`; `holding e` is
the `yield endpoint` span; `finished` means the context manager exited
(successfully released, timed out, or cancelled). -/
inductive AcqPC
  | looping (ev : Option Nat)
  | holding (e : Nat)
  | finished
deriving DecidableEq, Repr

/-- One caller of `get_endpoint`, with counters for how many times this
entry handed out an endpoint (`acquired`) and how many times its
`finally` block put one back (`released`). -/
structure AcqCaller where
  pc : AcqPC
  acquired : Nat := 0
  released : Nat := 0
deriving DecidableEq, Repr

/-- The shared pool state: the `endpoint_queue` contents (front = next
`get_nowait`), the `busy` flag of each endpoint (by id), and the
callers currently or previously inside `get_endpoint`. -/
structure PoolState where
  queue : List Nat
  busy : Nat → Bool
  callers : List AcqCaller

/-- `Endpoint` (api_core.py:104-109) minus the write-only `last_used`
timestamp, which no translated code ever reads. -/
structure Endpoint where
  id : Nat
  url : String
  busy : Bool := false
deriving DecidableEq, Repr

/-- `EndpointManager.initialize_endpoints` (api_core.py:118-123): one
endpoint per configured URL, ids 1, 2, ..., all initially free and all
placed in the queue in order. -/
def initialize_endpoints (urls : List String) : List Endpoint :=
  urls.enum.map fun p => { id := p.1 + 1, url := p.2 }

/-- The endpoint ids of a pool over `K` URLs: `1, ..., K`. -/
def poolIds (K : Nat) : List Nat := (List.range K).map (· + 1)

/-- The pool state `EndpointManager.__init__` creates for `K`
configured URLs. -/
def initPool (K : Nat) : PoolState :=
  { queue := poolIds K, busy := fun _ => false, callers := [] }

/-- `max_wait_time` default of `get_endpoint` (api_core.py:126). -/
def get_endpoint_default_max_wait : Nat := 10

/-- Atomic transitions of the pool, one per suspension-point-delimited
region of `get_endpoint` (api_core.py:125-156):
* `enter` — a new task calls `get_endpoint` and reaches the loop top
  (`endpoint = None`).
* `acquire` — `get_nowait` pops a free endpoint; under the lock its
  `busy` flag is set and the loop breaks into the `yield`.
* `requeueBusy` — `get_nowait` pops a busy endpoint, which is put back
  at the queue's tail; the local `endpoint` keeps pointing at it.
* `abortWaitNone` / `abortWaitSome` — the loop raises `TimeoutError`
  (or the task is cancelled in the `sleep(0.5)`); the `finally` block
  releases the local `endpoint` if it is set.
* `release` — the context manager exits the `yield` (normally or by
  cancellation); the `finally` block clears `busy` and re-queues the
  endpoint. -/
inductive PoolStep (K : Nat) : PoolState → PoolState → Prop
  | enter (q : List Nat) (b : Nat → Bool) (cs : List AcqCaller) :
      PoolStep K ⟨q, b, cs⟩ ⟨q, b, cs ++ [{ pc := .looping none }]⟩
  | acquire (q' : List Nat) (b : Nat → Bool) (cs : List AcqCaller)
      (i e : Nat) (c : AcqCaller) (ev : Option Nat)
      (hc : cs[i]? = some c) (hpc : c.pc = .looping ev) (hb : b e = false) :
      PoolStep K ⟨e :: q', b, cs⟩
        ⟨q', Function.update b e true,
         cs.set i { pc := .holding e, acquired := c.acquired + 1, released := c.released }⟩
  | requeueBusy (q' : List Nat) (b : Nat → Bool) (cs : List AcqCaller)
      (i e : Nat) (c : AcqCaller) (ev : Option Nat)
      (hc : cs[i]? = some c) (hpc : c.pc = .looping ev) (hb : b e = true) :
      PoolStep K ⟨e :: q', b, cs⟩
        ⟨q' ++ [e], b,
         cs.set i { pc := .looping (some e), acquired := c.acquired, released := c.released }⟩
  | abortWaitNone (q : List Nat) (b : Nat → Bool) (cs : List AcqCaller)
      (i : Nat) (c : AcqCaller)
      (hc : cs[i]? = some c) (hpc : c.pc = .looping none) :
      PoolStep K ⟨q, b, cs⟩
        ⟨q, b, cs.set i { pc := .finished, acquired := c.acquired, released := c.released }⟩
  | abortWaitSome (q : List Nat) (b : Nat → Bool) (cs : List AcqCaller)
      (i e : Nat) (c : AcqCaller)
      (hc : cs[i]? = some c) (hpc : c.pc = .looping (some e)) :
      PoolStep K ⟨q, b, cs⟩
        ⟨q ++ [e], Function.update b e false,
         cs.set i { pc := .finished, acquired := c.acquired, released := c.released + 1 }⟩
  | release (q : List Nat) (b : Nat → Bool) (cs : List AcqCaller)
      (i e : Nat) (c : AcqCaller)
      (hc : cs[i]? = some c) (hpc : c.pc = .holding e) :
      PoolStep K ⟨q, b, cs⟩
        ⟨q ++ [e], Function.update b e false,
         cs.set i { pc := .finished, acquired := c.acquired, released := c.released + 1 }⟩

/-- The pool states reachable from `EndpointManager.__init__` under any
interleaving of acquisition attempts, timeouts, cancellations and
releases. -/
inductive PoolReached (K : Nat) : PoolState → Prop
  | init : PoolReached K (initPool K)
  | step {s s' : PoolState} : PoolReached K s → PoolStep K s s' → PoolReached K s'

/-- Caller `i` currently holds endpoint `e` (it is inside the `yield`
of `get_endpoint`). -/
def holds (s : PoolState) (i e : Nat) : Prop :=
  ∃ c, s.callers[i]? = some c ∧ c.pc = .holding e

/-! ## Generation lane driving loop (api.py:183-252)

`process_video_queue` keeps a set `active_tasks` of spawned
`process_single_request` tasks and admits a new queue item only while
`len(active_tasks) < MAX_CONCURRENT`.  A task leaves the set when it
completes (`active_tasks.discard` in its `finally`, or the reap steps
of the loop).  The transition system tracks the pending queue and the
in-flight tasks (by request id). -/

/-- `MAX_CONCURRENT` (api.py:186): the number of configured round-robin
endpoint URLs. -/
def MAX_CONCURRENT (urls : List String) : Nat := urls.length

/-- State of one connection's generation lane: the queued requests and
the spawned, not-yet-finished tasks. -/
structure VideoLaneState where
  queue : List (Option String)
  active_tasks : List (Option String)
deriving DecidableEq, Repr

/-- Atomic transitions of the generation lane:
* `enqueue` — the router puts a `generate_video` request on the queue;
* `spawn` — the driving loop, having observed `len(active_tasks) <
  MAX_CONCURRENT`, dequeues an item and starts a task for it
  (api.py:226-233);
* `complete` — an in-flight task finishes and leaves the set
  (api.py:219, 246-252). -/
inductive VideoLaneStep (K : Nat) : VideoLaneState → VideoLaneState → Prop
  | enqueue (q t : List (Option String)) (r : Option String) :
      VideoLaneStep K ⟨q, t⟩ ⟨q ++ [r], t⟩
  | spawn (q t : List (Option String)) (r : Option String)
      (h : t.length < K) :
      VideoLaneStep K ⟨r :: q, t⟩ ⟨q, t ++ [r]⟩
  | complete (q t1 t2 : List (Option String)) (r : Option String) :
      VideoLaneStep K ⟨q, t1 ++ r :: t2⟩ ⟨q, t1 ++ t2⟩

/-- The generation-lane states reachable from the start of
`process_video_queue` (empty queue, no tasks). -/
inductive VideoLaneReached (K : Nat) : VideoLaneState → Prop
  | init : VideoLaneReached K ⟨[], []⟩
  | step {s s' : VideoLaneState} :
      VideoLaneReached K s → VideoLaneStep K s s' → VideoLaneReached K s'

/-! ## Verification-layer definitions: sample states and the pool invariant -/

def c2_state : ApiState Nat :=
  { chat_rooms := fun _ => { messages := [], connected_clients := [1, 2] },
    video_events := fun _ => [] }

def c2_send : Nat → Bool := fun c => decide (c ≠ 1)

def c2_data : ChatData :=
  { videoId := some "T", requestId := some "r1", username := some "alice", content := some "hi" }

/-- Per-caller well-formedness, relative to the shared pool state. -/
def CallerOk (K : Nat) (s : PoolState) (c : AcqCaller) : Prop :=
  (∀ ev, c.pc = .looping ev → ev = none ∧ c.acquired = 0 ∧ c.released = 0)
  ∧ (∀ e, c.pc = .holding e → e ∈ poolIds K ∧ s.busy e = true ∧ e ∉ s.queue
      ∧ c.acquired = 1 ∧ c.released = 0)
  ∧ (c.pc = .finished → c.released = c.acquired ∧ c.acquired ≤ 1)

/-- The pool's inductive invariant: queued endpoints are free and valid,
the queue has no duplicates, every caller is well-formed, the busy flag
marks exactly the held endpoints, holders are unique, and every valid
endpoint is queued or busy. -/
def PoolInv (K : Nat) (s : PoolState) : Prop :=
  (∀ e ∈ s.queue, s.busy e = false)
  ∧ s.queue.Nodup
  ∧ (∀ e ∈ s.queue, e ∈ poolIds K)
  ∧ (∀ (i : Nat) (c : AcqCaller), s.callers[i]? = some c → CallerOk K s c)
  ∧ (∀ e, s.busy e = true ↔ ∃ i, holds s i e)
  ∧ (∀ i j e, holds s i e → holds s j e → i = j)
  ∧ (∀ e, e ∈ poolIds K → e ∈ s.queue ∨ s.busy e = true)

/-- Final pool state of a sample run over a one-endpoint pool: a caller
entered `get_endpoint`, acquired endpoint 1, and released it. -/
def poolSample : PoolState :=
  ⟨[] ++ [1],
   Function.update (Function.update (fun _ => false) 1 true) 1 false,
   ((([] : List AcqCaller) ++ [({ pc := .looping none } : AcqCaller)]).set 0
       ({ pc := .holding 1, acquired := 0 + 1, released := 0 } : AcqCaller)).set 0
     ({ pc := .finished, acquired := 0 + 1, released := 0 + 1 } : AcqCaller)⟩

/-- Pool state with one endpoint still queued and a single caller parked
in the acquisition loop. -/
def poolWaiting : PoolState :=
  ⟨poolIds 1, fun _ => false, [] ++ [({ pc := .looping none } : AcqCaller)]⟩

/-- Generation-lane state after two requests were enqueued and spawned
on a two-endpoint configuration. -/
def videoLaneSample : VideoLaneState :=
  ⟨[], ([] ++ [some "a"]) ++ [some "b"]⟩

/-! ## Theorems -/

theorem foldl_boundedAppend (cap : Nat) (l : List α) :
    ∀ start : List α, start.length ≤ cap →
      l.foldl (boundedAppend cap) start = (start ++ l).drop ((start ++ l).length - cap) := by
  induction l with
  | nil =>
    intro start h
    simp [Nat.sub_eq_zero_of_le h]
  | cons m t ih =>
    intro start h
    rw [List.foldl_cons]
    by_cases h1 : cap < (start ++ [m]).length
    · have hlen : start.length = cap := by
        simp only [List.length_append, List.length_singleton] at h1
        omega
      have hstep : boundedAppend cap start m = (start ++ [m]).drop 1 := by
        simp only [boundedAppend, if_pos h1, List.drop_one]
      have hlen' : ((start ++ [m]).drop 1).length ≤ cap := by
        simp only [List.length_drop, List.length_append, List.length_singleton]
        omega
      rw [hstep, ih _ hlen']
      have hsplit : (start ++ [m]).drop 1 ++ t = (start ++ m :: t).drop 1 := by
        rw [show start ++ m :: t = (start ++ [m]) ++ t by simp]
        exact (List.drop_append_of_le_length (by simp)).symm
      rw [hsplit, List.drop_drop]
      have e1 : ((start ++ m :: t).drop 1).length = start.length + t.length := by
        simp only [List.length_drop, List.length_append, List.length_cons]
        omega
      rw [e1]
      congr 1
      simp only [List.length_append, List.length_cons]
      omega
    · have h2 : (start ++ [m]).length ≤ cap := Nat.le_of_not_lt h1
      have hstep : boundedAppend cap start m = start ++ [m] := by
        simp only [boundedAppend, if_neg h1]
      rw [hstep, ih _ h2]
      rw [show (start ++ [m]) ++ t = start ++ m :: t by simp]

theorem add_message_messages (msgs : List ChatData) :
    ∀ r : ChatRoom C, (msgs.foldl ChatRoom.add_message r).messages
      = msgs.foldl (boundedAppend ChatRoom.max_history) r.messages := by
  induction msgs with
  | nil => intro r; rfl
  | cons m t ih =>
    intro r
    rw [List.foldl_cons, List.foldl_cons, ih]
    rfl

theorem add_event_events [DecidableEq C] (events : List VideoEvent) (vid : String) :
    ∀ st : ApiState C, ((events.foldl (fun s e => _add_event s vid e) st).video_events vid)
      = events.foldl (boundedAppend event_history_limit) (st.video_events vid) := by
  induction events with
  | nil => intro st; rfl
  | cons e t ih =>
    intro st
    rw [List.foldl_cons, List.foldl_cons, ih]
    simp [_add_event]

/-- Claim C8: after every sequence of appends to a fresh chat room and a
fresh event log, the room history holds at most 100 entries and the
event log at most 50; the survivors are exactly the most recent entries
in insertion order (so whenever an append would exceed the cap, the
oldest entry is the one evicted). -/
theorem history_caps (C : Type) [DecidableEq C]
    (msgs : List ChatData) (events : List VideoEvent) (vid : String) :
    ((msgs.foldl ChatRoom.add_message ({} : ChatRoom C)).messages).length ≤ 100
    ∧ (msgs.foldl ChatRoom.add_message ({} : ChatRoom C)).messages
        = msgs.drop (msgs.length - 100)
    ∧ (((events.foldl (fun s e => _add_event s vid e) (initApiState C)).video_events vid)).length ≤ 50
    ∧ ((events.foldl (fun s e => _add_event s vid e) (initApiState C)).video_events vid)
        = events.drop (events.length - 50) := by
  have hm : (msgs.foldl ChatRoom.add_message ({} : ChatRoom C)).messages
      = msgs.drop (msgs.length - 100) := by
    rw [add_message_messages]
    have := foldl_boundedAppend ChatRoom.max_history msgs [] (by simp)
    simpa [ChatRoom.max_history] using this
  have he : ((events.foldl (fun s e => _add_event s vid e) (initApiState C)).video_events vid)
      = events.drop (events.length - 50) := by
    rw [add_event_events]
    have := foldl_boundedAppend event_history_limit events [] (by simp)
    simpa [event_history_limit, initApiState] using this
  refine ⟨?_, hm, ?_, he⟩
  · rw [hm]; simp only [List.length_drop]; omega
  · rw [he]; simp only [List.length_drop]; omega

theorem self_mem_boundedAppend (cap : Nat) (hcap : 1 ≤ cap) (l : List α) (m : α) :
    m ∈ boundedAppend cap l m := by
  unfold boundedAppend
  by_cases h : cap < (l ++ [m]).length
  · simp only [if_pos h]
    cases l with
    | nil => simp at h; omega
    | cons a t => simp
  · rw [if_neg h]
    simp

/-- Claim C7: a `chat_message`, `join_chat` or `leave_chat` request
whose topic id (`videoId`) is missing or empty gets a `success:false`
response with error "No video ID provided", no exception is raised, and
no chat-room history, membership, or event-log state is mutated. -/
theorem missing_topic_id_rejected (C : Type) [DecidableEq C] (send_ok : C → Bool) (now : String)
    (st : ApiState C) (d : ChatData) (ws : C) (h : isFalsyStr d.videoId = true) :
    handle_chat_message send_ok now st d ws =
      { result := .ok { action := "chat_message", requestId := d.requestId, success := false,
                        error := some "No video ID provided" },
        state := st, delivered := [] }
    ∧ handle_join_chat st d ws =
      ({ action := "join_chat", requestId := d.requestId, success := false,
         error := some "No video ID provided" }, st)
    ∧ handle_leave_chat st d ws =
      ({ action := "leave_chat", requestId := d.requestId, success := false,
         error := some "No video ID provided" }, st) := by
  refine ⟨?_, ?_, ?_⟩ <;> simp [handle_chat_message, handle_join_chat, handle_leave_chat, h]

/-- Claim C9: for a `chat_message` with a non-empty topic id, the
message is appended to the topic's event log and chat-room history
before any broadcast delivery is attempted: whatever the delivery
outcomes (`send_ok` arbitrary, including everyone failing, in which
case the handler raises), the post-state holds the appended event and
message — the operation does not roll back on a delivery error. -/
theorem chat_message_stored_despite_delivery_failure (C : Type) [DecidableEq C]
    (send_ok : C → Bool) (now : String) (st : ApiState C) (d : ChatData) (ws : C)
    (h : isFalsyStr d.videoId = false) :
    ((handle_chat_message send_ok now st d ws).state.video_events (d.videoId.getD "")
        = boundedAppend event_history_limit (st.video_events (d.videoId.getD ""))
            { time := now, event := "new_chat_message",
              username := some (d.username.getD "Anonymous"),
              data := some (d.content.getD "") })
    ∧ (((handle_chat_message send_ok now st d ws).state.chat_rooms (d.videoId.getD "")).messages
        = boundedAppend ChatRoom.max_history ((st.chat_rooms (d.videoId.getD "")).messages) d)
    ∧ d ∈ ((handle_chat_message send_ok now st d ws).state.chat_rooms (d.videoId.getD "")).messages := by
  refine ⟨?_, ?_, ?_⟩
  · simp [handle_chat_message, h, _add_event]
  · simp [handle_chat_message, h, _add_event, ChatRoom.add_message]
  · have : (((handle_chat_message send_ok now st d ws).state.chat_rooms (d.videoId.getD "")).messages
        = boundedAppend ChatRoom.max_history ((st.chat_rooms (d.videoId.getD "")).messages) d) := by
      simp [handle_chat_message, h, _add_event, ChatRoom.add_message]
    rw [this]
    exact self_mem_boundedAppend _ (by simp [ChatRoom.max_history]) _ _

/-- Claim C10: for a non-empty topic id, `handle_leave_chat` returns
`success:true` whether or not the caller is a member, never raises (it
is a total function into responses), is idempotent (a second call
returns the same response and leaves the same state, with the caller
absent), and leaves other members, the topic's history, other topics,
and the event logs unchanged.  The `Nodup` hypothesis holds for every
room because membership is a Python `set`. -/
theorem leave_chat_idempotent (C : Type) [DecidableEq C] (st : ApiState C) (d : ChatData) (ws : C)
    (h : isFalsyStr d.videoId = false)
    (hnd : ((st.chat_rooms (d.videoId.getD "")).connected_clients).Nodup) :
    (handle_leave_chat st d ws).1 =
      { action := "leave_chat", requestId := d.requestId, success := true }
    ∧ ws ∉ (((handle_leave_chat st d ws).2).chat_rooms (d.videoId.getD "")).connected_clients
    ∧ handle_leave_chat (handle_leave_chat st d ws).2 d ws = handle_leave_chat st d ws
    ∧ (∀ c, c ≠ ws →
        (c ∈ (((handle_leave_chat st d ws).2).chat_rooms (d.videoId.getD "")).connected_clients
          ↔ c ∈ (st.chat_rooms (d.videoId.getD "")).connected_clients))
    ∧ (((handle_leave_chat st d ws).2).chat_rooms (d.videoId.getD "")).messages
        = (st.chat_rooms (d.videoId.getD "")).messages
    ∧ (∀ v, v ≠ d.videoId.getD "" → ((handle_leave_chat st d ws).2).chat_rooms v = st.chat_rooms v)
    ∧ ((handle_leave_chat st d ws).2).video_events = st.video_events := by
  by_cases hm : ws ∈ (st.chat_rooms (d.videoId.getD "")).connected_clients
  · refine ⟨by simp [handle_leave_chat, h], ?_, ?_, ?_, ?_, ?_, ?_⟩
    · simp only [handle_leave_chat, h, Bool.false_eq_true, if_false, if_pos hm,
        Function.update_same]
      intro hmem
      exact ((hnd.mem_erase_iff).mp hmem).1 rfl
    · have hnotmem : ws ∉ ((st.chat_rooms (d.videoId.getD "")).connected_clients).erase ws :=
        fun hmem => ((hnd.mem_erase_iff).mp hmem).1 rfl
      simp only [handle_leave_chat, h, Bool.false_eq_true, if_false, if_pos hm,
        Function.update_same, if_neg hnotmem]
      refine Prod.ext rfl ?_
      simp [Function.update_idem]
    · intro c hc
      simp only [handle_leave_chat, h, Bool.false_eq_true, if_false, if_pos hm,
        Function.update_same]
      rw [hnd.mem_erase_iff]
      simp [hc]
    · simp [handle_leave_chat, h, if_pos hm]
    · intro v hv
      simp [handle_leave_chat, h, if_pos hm, Function.update_noteq hv]
    · simp [handle_leave_chat, h, if_pos hm]
  · refine ⟨by simp [handle_leave_chat, h], ?_, ?_, ?_, ?_, ?_, ?_⟩
    · simp only [handle_leave_chat, h, Bool.false_eq_true, if_false, if_neg hm,
        Function.update_same]
      exact hm
    · simp only [handle_leave_chat, h, Bool.false_eq_true, if_false, if_neg hm,
        Function.update_same]
      refine Prod.ext rfl ?_
      simp [Function.update_idem]
    · intro c hc
      simp [handle_leave_chat, h, if_neg hm]
    · simp [handle_leave_chat, h, if_neg hm]
    · intro v hv
      simp [handle_leave_chat, h, if_neg hm, Function.update_noteq hv]
    · simp [handle_leave_chat, h, if_neg hm]

/-- Claim C2, evaluated at the failing input (code bug): topic "T" has
members 1 and 2, the sender is connection 0, and delivery to member 1
fails.  The code removes member 1 from the set it is iterating, so the
next iterator step raises `RuntimeError: Set changed size during
iteration`: member 2 never receives the broadcast, and the chat lane
turns the exception into a `success:false` "Chat error" response for
the sender — not the `success:true` the claim requires.  (The message
itself stays stored in the room history.) -/
theorem chat_broadcast_aborts_on_failed_send :
    (handle_chat_message c2_send "t0" c2_state c2_data 0).result
        = .error (.runtimeError "Set changed size during iteration")
    ∧ (handle_chat_message c2_send "t0" c2_state c2_data 0).delivered = []
    ∧ ((handle_chat_message c2_send "t0" c2_state c2_data 0).state.chat_rooms "T").connected_clients
        = [2]
    ∧ ((handle_chat_message c2_send "t0" c2_state c2_data 0).state.chat_rooms "T").messages
        = [c2_data]
    ∧ (chat_step c2_send (fun _ => none) "t0" c2_state ⟨.chat_message, c2_data⟩ 0).2.emitted
        = [{ action := "chat_message", requestId := some "r1", success := false,
             error := some "Chat error: Set changed size during iteration" }] := by
  refine ⟨?_, ?_, ?_, ?_, ?_⟩ <;> rfl

theorem search_item_result_shape (sv : SearchData → SearchOutcome) (d : SearchData) :
    (search_item_result sv d).action = "search"
    ∧ (search_item_result sv d).requestId = d.requestId := by
  unfold search_item_result
  by_cases hq : (d.query.getD "").trim = ""
  · simp [hq]
  · simp only [if_neg hq]
    cases sv d <;> simp

theorem handle_join_chat_shape (C : Type) [DecidableEq C] (st : ApiState C) (d : ChatData) (ws : C) :
    ((handle_join_chat st d ws).1).action = "join_chat"
    ∧ ((handle_join_chat st d ws).1).requestId = d.requestId := by
  unfold handle_join_chat
  dsimp only
  split <;> simp

theorem handle_leave_chat_shape (C : Type) [DecidableEq C] (st : ApiState C) (d : ChatData) (ws : C) :
    ((handle_leave_chat st d ws).1).action = "leave_chat"
    ∧ ((handle_leave_chat st d ws).1).requestId = d.requestId := by
  unfold handle_leave_chat
  dsimp only
  split <;> simp

theorem handle_chat_message_ok_shape (C : Type) [DecidableEq C] (send_ok : C → Bool)
    (now : String) (st : ApiState C) (d : ChatData) (ws : C) (r : Response)
    (h : (handle_chat_message send_ok now st d ws).result = .ok r) :
    r.action = "chat_message" ∧ r.requestId = d.requestId := by
  by_cases hf : isFalsyStr d.videoId = true
  · simp only [handle_chat_message, hf, if_true] at h
    injection h with h'
    subst h'
    exact ⟨rfl, rfl⟩
  · rw [Bool.not_eq_true] at hf
    simp only [handle_chat_message, hf, Bool.false_eq_true, if_false] at h
    split at h
    · exact absurd h (by simp)
    · injection h with h'
      subst h'
      exact ⟨rfl, rfl⟩

theorem search_step_uncaught (sv : SearchData → SearchOutcome)
    (send_ws : Response → Option String) (d : SearchData) :
    (search_step sv send_ws d).uncaught = none := by
  unfold search_step
  dsimp only
  split
  · rfl
  · split <;> rfl

theorem chat_step_uncaught (C : Type) [DecidableEq C] (send_ok : C → Bool)
    (send_ws : Response → Option String) (now : String) (st : ApiState C)
    (it : ChatItem) (ws : C) :
    (chat_step send_ok send_ws now st it ws).2.uncaught = none := by
  rcases it with ⟨a, d⟩
  cases a
  case join_chat =>
    rcases hp : handle_join_chat st d ws with ⟨r, st'⟩
    unfold chat_step
    dsimp only
    rw [hp]
    try dsimp only
    split
    · rfl
    · split <;> rfl
  case chat_message =>
    unfold chat_step
    dsimp only
    cases hr : (handle_chat_message send_ok now st d ws).result with
    | ok r =>
      try dsimp only
      split
      · rfl
      · split <;> rfl
    | error e =>
      try dsimp only
      split <;> rfl
  case leave_chat =>
    rcases hp : handle_leave_chat st d ws with ⟨r, st'⟩
    unfold chat_step
    dsimp only
    rw [hp]
    try dsimp only
    split
    · rfl
    · split <;> rfl

theorem search_step_emit (sv : SearchData → SearchOutcome)
    (send_ws : Response → Option String) (d : SearchData)
    (hsend : ∀ r, send_ws r = none) :
    ((search_step sv send_ws d).emitted).map (fun r => (r.action, r.requestId))
      = [("search", d.requestId)] := by
  have hs := search_item_result_shape sv d
  unfold search_step
  dsimp only
  rw [hsend _]
  dsimp only
  simp [hs.1, hs.2]

theorem chat_step_emit (C : Type) [DecidableEq C] (send_ok : C → Bool)
    (send_ws : Response → Option String) (now : String) (st : ApiState C)
    (it : ChatItem) (ws : C) (hsend : ∀ r, send_ws r = none) :
    ((chat_step send_ok send_ws now st it ws).2.emitted).map (fun r => (r.action, r.requestId))
      = [(it.action.name, it.data.requestId)] := by
  rcases it with ⟨a, d⟩
  cases a
  case join_chat =>
    rcases hp : handle_join_chat st d ws with ⟨r, st'⟩
    have hs := handle_join_chat_shape C st d ws
    rw [hp] at hs
    unfold chat_step
    dsimp only
    rw [hp]
    try dsimp only
    rw [hsend r]
    dsimp only
    simp only at hs
    simp [hs.1, hs.2, ChatAction.name]
  case chat_message =>
    unfold chat_step
    dsimp only
    cases hr : (handle_chat_message send_ok now st d ws).result with
    | ok r =>
      have hs := handle_chat_message_ok_shape C send_ok now st d ws r hr
      try dsimp only
      rw [hsend r]
      dsimp only
      simp [hs.1, hs.2, ChatAction.name]
    | error e =>
      try dsimp only
      rw [hsend _]
      dsimp only
      simp [ChatAction.name]
  case leave_chat =>
    rcases hp : handle_leave_chat st d ws with ⟨r, st'⟩
    have hs := handle_leave_chat_shape C st d ws
    rw [hp] at hs
    unfold chat_step
    dsimp only
    rw [hp]
    try dsimp only
    rw [hsend r]
    dsimp only
    simp only at hs
    simp [hs.1, hs.2, ChatAction.name]

theorem process_search_queue_emit (sv : SearchData → SearchOutcome)
    (send_ws : Response → Option String) (hsend : ∀ r, send_ws r = none) :
    ∀ items : List SearchData,
      ((process_search_queue sv send_ws items).emitted).map (fun r => (r.action, r.requestId))
        = items.map fun d => ("search", d.requestId) := by
  intro items
  induction items with
  | nil => rfl
  | cons d ds ih =>
    unfold process_search_queue
    dsimp only
    rw [search_step_uncaught]
    dsimp only
    rw [List.map_append, ih, search_step_emit sv send_ws d hsend]
    rfl

theorem process_chat_queue_emit (C : Type) [DecidableEq C] (send_ok : C → Bool)
    (send_ws : Response → Option String) (now : String) (ws : C)
    (hsend : ∀ r, send_ws r = none) :
    ∀ (citems : List ChatItem) (st : ApiState C),
      (((process_chat_queue send_ok send_ws now ws st citems).2).emitted).map
          (fun r => (r.action, r.requestId))
        = citems.map fun it => (it.action.name, it.data.requestId) := by
  intro citems
  induction citems with
  | nil => intro st; rfl
  | cons it its ih =>
    intro st
    unfold process_chat_queue
    dsimp only
    rcases hcs : chat_step send_ok send_ws now st it ws with ⟨st', o⟩
    have hu : o.uncaught = none := by
      have := chat_step_uncaught C send_ok send_ws now st it ws
      rw [hcs] at this
      exact this
    dsimp only
    rw [hu]
    dsimp only
    rcases hrun : process_chat_queue send_ok send_ws now ws st' its with ⟨st'', rest⟩
    dsimp only
    rw [List.map_append]
    have h1 : o.emitted.map (fun r => (r.action, r.requestId)) = [(it.action.name, it.data.requestId)] := by
      have := chat_step_emit C send_ok send_ws now st it ws hsend
      rw [hcs] at this
      exact this
    have h2 := ih st'
    rw [hrun] at h2
    dsimp only at h2
    rw [h1, h2]
    rfl

theorem search_step_attempts_head (sv : SearchData → SearchOutcome)
    (send_ws : Response → Option String) (d : SearchData) :
    search_item_result sv d ∈ (search_step sv send_ws d).attempts := by
  unfold search_step
  dsimp only
  split
  · simp
  · split <;> simp

theorem search_item_result_failure (sv : SearchData → SearchOutcome) (d : SearchData)
    (m : String) (hfail : sv d = .raised m) :
    (search_item_result sv d).success = false := by
  unfold search_item_result
  by_cases hq : (d.query.getD "").trim = ""
  · simp [hq]
  · simp [if_neg hq, hfail]

theorem chat_step_attempts_id (C : Type) [DecidableEq C] (send_ok : C → Bool)
    (send_ws : Response → Option String) (now : String) (st : ApiState C)
    (it : ChatItem) (ws : C) :
    ∀ r ∈ (chat_step send_ok send_ws now st it ws).2.attempts,
      r.requestId = it.data.requestId := by
  rcases it with ⟨a, d⟩
  cases a
  case join_chat =>
    rcases hp : handle_join_chat st d ws with ⟨r0, st'⟩
    have hs := handle_join_chat_shape C st d ws
    rw [hp] at hs
    try simp only at hs
    unfold chat_step
    dsimp only
    rw [hp]
    try dsimp only
    split
    · intro r hr
      simp only [List.mem_singleton] at hr
      subst hr
      exact hs.2
    · split <;>
        (intro r hr
         simp only [List.mem_cons, List.mem_singleton, List.not_mem_nil, or_false] at hr
         rcases hr with hr | hr <;> subst hr <;> first | exact hs.2 | rfl)
  case chat_message =>
    unfold chat_step
    dsimp only
    cases hres : (handle_chat_message send_ok now st d ws).result with
    | ok r0 =>
      have hs := handle_chat_message_ok_shape C send_ok now st d ws r0 hres
      try dsimp only
      split
      · intro r hr
        simp only [List.mem_singleton] at hr
        subst hr
        exact hs.2
      · split <;>
          (intro r hr
           simp only [List.mem_cons, List.mem_singleton, List.not_mem_nil, or_false] at hr
           rcases hr with hr | hr <;> subst hr <;> first | exact hs.2 | rfl)
    | error e =>
      try dsimp only
      split <;> (intro r hr; simp only [List.mem_singleton] at hr; subst hr; rfl)
  case leave_chat =>
    rcases hp : handle_leave_chat st d ws with ⟨r0, st'⟩
    have hs := handle_leave_chat_shape C st d ws
    rw [hp] at hs
    try simp only at hs
    unfold chat_step
    dsimp only
    rw [hp]
    try dsimp only
    split
    · intro r hr
      simp only [List.mem_singleton] at hr
      subst hr
      exact hs.2
    · split <;>
        (intro r hr
         simp only [List.mem_cons, List.mem_singleton, List.not_mem_nil, or_false] at hr
         rcases hr with hr | hr <;> subst hr <;> first | exact hs.2 | rfl)

theorem chat_step_attempts_len (C : Type) [DecidableEq C] (send_ok : C → Bool)
    (send_ws : Response → Option String) (now : String) (st : ApiState C)
    (it : ChatItem) (ws : C) :
    1 ≤ (chat_step send_ok send_ws now st it ws).2.attempts.length := by
  rcases it with ⟨a, d⟩
  cases a
  case join_chat =>
    rcases hp : handle_join_chat st d ws with ⟨r0, st'⟩
    unfold chat_step
    dsimp only
    rw [hp]
    try dsimp only
    split <;> first | simp | (split <;> simp)
  case chat_message =>
    unfold chat_step
    dsimp only
    cases hres : (handle_chat_message send_ok now st d ws).result with
    | ok r0 =>
      try dsimp only
      split <;> first | simp | (split <;> simp)
    | error e =>
      try dsimp only
      split <;> simp
  case leave_chat =>
    rcases hp : handle_leave_chat st d ws with ⟨r0, st'⟩
    unfold chat_step
    dsimp only
    rw [hp]
    try dsimp only
    split <;> first | simp | (split <;> simp)

theorem process_search_queue_run (sv : SearchData → SearchOutcome)
    (send_ws : Response → Option String) :
    ∀ items : List SearchData,
      (process_search_queue sv send_ws items).attempts
        = items.flatMap (fun d => (search_step sv send_ws d).attempts)
      ∧ (process_search_queue sv send_ws items).uncaught = none := by
  intro items
  induction items with
  | nil => exact ⟨rfl, rfl⟩
  | cons d ds ih =>
    unfold process_search_queue
    dsimp only
    rw [search_step_uncaught]
    dsimp only
    exact ⟨by rw [ih.1]; rfl, ih.2⟩

theorem process_chat_queue_run (C : Type) [DecidableEq C] (send_ok : C → Bool)
    (send_ws : Response → Option String) (now : String) (ws : C) :
    ∀ (citems : List ChatItem) (st : ApiState C),
      ((process_chat_queue send_ok send_ws now ws st citems).2).uncaught = none
      ∧ citems.length ≤ ((process_chat_queue send_ok send_ws now ws st citems).2).attempts.length := by
  intro citems
  induction citems with
  | nil => intro st; exact ⟨rfl, by simp⟩
  | cons it its ih =>
    intro st
    unfold process_chat_queue
    dsimp only
    rcases hcs : chat_step send_ok send_ws now st it ws with ⟨st', o⟩
    have hu : o.uncaught = none := by
      have := chat_step_uncaught C send_ok send_ws now st it ws
      rw [hcs] at this
      exact this
    have hlen : 1 ≤ o.attempts.length := by
      have := chat_step_attempts_len C send_ok send_ws now st it ws
      rw [hcs] at this
      exact this
    dsimp only
    rw [hu]
    dsimp only
    rcases hrun : process_chat_queue send_ok send_ws now ws st' its with ⟨st'', rest⟩
    have h2 := ih st'
    rw [hrun] at h2
    dsimp only at h2 ⊢
    refine ⟨h2.1, ?_⟩
    rw [List.length_append]
    have h3 := h2.2
    simp only [List.length_cons]
    omega

theorem poolIds_nodup (K : Nat) : (poolIds K).Nodup :=
  (List.nodup_range K).map (fun a b h => by omega)

theorem getElem?_set_self_of_lt {α : Type} (l : List α) (i : Nat) (a : α)
    (h : i < l.length) : (l.set i a)[i]? = some a := by
  simp [List.getElem?_set_self', List.getElem?_eq_getElem h]

theorem holds_set_iff (q q2 : List Nat) (b b2 : Nat → Bool) (cs : List AcqCaller)
    (i : Nat) (c' : AcqCaller) (hi : i < cs.length) (j e : Nat) :
    holds ⟨q2, b2, cs.set i c'⟩ j e ↔
      ((j = i ∧ c'.pc = .holding e) ∨ (j ≠ i ∧ holds ⟨q, b, cs⟩ j e)) := by
  by_cases hj : j = i
  · subst hj
    unfold holds
    dsimp only
    rw [getElem?_set_self_of_lt _ _ _ hi]
    constructor
    · rintro ⟨c, hcc, hp⟩
      injection hcc with h'
      subst h'
      exact Or.inl ⟨rfl, hp⟩
    · rintro (⟨_, hp⟩ | ⟨hne, _⟩)
      · exact ⟨c', rfl, hp⟩
      · exact absurd rfl hne
  · unfold holds
    dsimp only
    rw [List.getElem?_set_ne (fun h => hj h.symm)]
    constructor
    · rintro ⟨c, hcc, hp⟩
      exact Or.inr ⟨hj, ⟨c, hcc, hp⟩⟩
    · rintro (⟨he', _⟩ | ⟨_, hold⟩)
      · exact absurd he' hj
      · exact hold

theorem holds_append_iff (q q2 : List Nat) (b b2 : Nat → Bool) (cs : List AcqCaller)
    (c0 : AcqCaller) (h0 : ∀ e, c0.pc ≠ .holding e) (j e : Nat) :
    holds ⟨q2, b2, cs ++ [c0]⟩ j e ↔ holds ⟨q, b, cs⟩ j e := by
  unfold holds
  dsimp only
  constructor
  · rintro ⟨c, hcc, hp⟩
    by_cases hj : j < cs.length
    · rw [List.getElem?_append_left hj] at hcc
      exact ⟨c, hcc, hp⟩
    · rw [List.getElem?_append_right (Nat.le_of_not_lt hj)] at hcc
      rcases hdi : j - cs.length with _ | k
      · rw [hdi] at hcc
        simp at hcc
        rw [← hcc] at hp
        exact absurd hp (h0 e)
      · rw [hdi] at hcc
        simp at hcc
  · rintro ⟨c, hcc, hp⟩
    have hj : j < cs.length := (List.getElem?_eq_some.mp hcc).1
    exact ⟨c, by rw [List.getElem?_append_left hj]; exact hcc, hp⟩

theorem poolInv_of_reached (K : Nat) (s : PoolState) (h : PoolReached K s) :
    PoolInv K s := by
  induction h with
  | init =>
    refine ⟨?_, poolIds_nodup K, ?_, ?_, ?_, ?_, ?_⟩
    · intro e _
      rfl
    · intro e he
      exact he
    · intro i c hc
      simp [initPool] at hc
    · intro e
      constructor
      · intro hb
        simp [initPool] at hb
      · rintro ⟨i, c, hc, _⟩
        simp [initPool] at hc
    · rintro i j e ⟨ci, hci, _⟩ _
      simp [initPool] at hci
    · intro e he
      exact Or.inl he
  | step hr hs ih =>
    cases hs with
    | enter q b cs =>
      obtain ⟨Iq, Ind, Isub, Ic, Ibh, Iun, Icons⟩ := ih
      dsimp only at Iq Ind Isub Ic Ibh Iun Icons
      have h0 : ∀ e, ({ pc := .looping none, acquired := 0, released := 0 } : AcqCaller).pc
          ≠ .holding e := by intro e h; simp at h
      refine ⟨Iq, Ind, Isub, ?_, ?_, ?_, Icons⟩ <;> dsimp only
      · intro i c hc
        by_cases hi : i < cs.length
        · rw [List.getElem?_append_left hi] at hc
          exact Ic i c hc
        · rw [List.getElem?_append_right (Nat.le_of_not_lt hi)] at hc
          rcases hdi : i - cs.length with _ | k
          · rw [hdi] at hc
            simp at hc
            subst hc
            refine ⟨?_, ?_, ?_⟩
            · intro ev hev
              injection hev with h'
              exact ⟨h'.symm, rfl, rfl⟩
            · intro e he
              simp at he
            · intro hfin
              simp at hfin
          · rw [hdi] at hc
            simp at hc
      · intro e
        rw [Ibh e]
        constructor
        · rintro ⟨i, hi⟩
          exact ⟨i, ((holds_append_iff q q b b cs _ h0 i e).mpr hi)⟩
        · rintro ⟨i, hi⟩
          exact ⟨i, ((holds_append_iff q q b b cs _ h0 i e).mp hi)⟩
      · intro i j e hi hj
        exact Iun i j e ((holds_append_iff q q b b cs _ h0 i e).mp hi)
          ((holds_append_iff q q b b cs _ h0 j e).mp hj)
    | acquire q' b cs i e c ev hc hpc hb =>
      obtain ⟨Iq, Ind, Isub, Ic, Ibh, Iun, Icons⟩ := ih
      dsimp only at Iq Ind Isub Ic Ibh Iun Icons
      have hi : i < cs.length := (List.getElem?_eq_some.mp hc).1
      have hcok := (Ic i c hc).1 ev hpc
      have he_mem : e ∈ poolIds K := Isub e (List.mem_cons_self e q')
      have hnodup := List.nodup_cons.mp Ind
      have hnotq' : e ∉ q' := hnodup.1
      have hnh : ¬ ∃ j, holds ⟨e :: q', b, cs⟩ j e := by
        intro hex
        have hbe := (Ibh e).mpr hex
        rw [hb] at hbe
        exact absurd hbe (by simp)
      set chold : AcqCaller :=
        { pc := .holding e, acquired := c.acquired + 1, released := c.released } with hchold
      refine ⟨?_, hnodup.2, ?_, ?_, ?_, ?_, ?_⟩ <;> dsimp only
      · intro e' he'
        have hne : e' ≠ e := fun h => hnotq' (h ▸ he')
        rw [Function.update_noteq hne]
        exact Iq e' (List.mem_cons_of_mem e he')
      · intro e' he'
        exact Isub e' (List.mem_cons_of_mem e he')
      · intro j cj hcj
        by_cases hj : j = i
        · subst hj
          rw [getElem?_set_self_of_lt _ _ _ hi] at hcj
          injection hcj with h'
          subst h'
          refine ⟨?_, ?_, ?_⟩
          · intro ev' hev'
            simp [hchold] at hev'
          · intro e' he'
            simp only [hchold] at he'
            injection he' with h'
            subst h'
            exact ⟨he_mem, Function.update_same e true b, hnotq',
              by simp [hchold, hcok.2.1], by simp [hchold, hcok.2.2]⟩
          · intro hfin
            simp [hchold] at hfin
        · rw [List.getElem?_set_ne (fun h => hj h.symm)] at hcj
          obtain ⟨ol, oh, of⟩ := Ic j cj hcj
          refine ⟨ol, ?_, of⟩
          intro e' he'
          obtain ⟨hm, hbusy, hq, hacq, hrel⟩ := oh e' he'
          dsimp only at hbusy hq
          have hne : e' ≠ e := by
            intro h
            subst h
            rw [hb] at hbusy
            exact absurd hbusy (by simp)
          exact ⟨hm, by (try dsimp only); rw [Function.update_noteq hne]; exact hbusy,
            fun h => hq (List.mem_cons_of_mem e h), hacq, hrel⟩
      · intro e'
        by_cases hee : e' = e
        · subst hee
          rw [Function.update_same]
          constructor
          · intro _
            exact ⟨i, (holds_set_iff (e' :: q') q' b _ cs i chold hi i e').mpr
              (Or.inl ⟨rfl, rfl⟩)⟩
          · intro _
            rfl
        · rw [Function.update_noteq hee]
          rw [Ibh e']
          constructor
          · rintro ⟨j, hj⟩
            refine ⟨j, (holds_set_iff (e :: q') q' b _ cs i chold hi j e').mpr ?_⟩
            right
            refine ⟨?_, hj⟩
            intro h
            subst h
            obtain ⟨cj, hcj, hpcj⟩ := hj
            rw [hc] at hcj
            injection hcj with h'
            subst h'
            rw [hpc] at hpcj
            simp at hpcj
          · rintro ⟨j, hj⟩
            rcases (holds_set_iff (e :: q') q' b _ cs i chold hi j e').mp hj with
              ⟨_, hph⟩ | ⟨_, hold⟩
            · simp only [hchold] at hph
              injection hph with h2
              exact absurd h2.symm hee
            · exact ⟨j, hold⟩
      · intro j j' e' hj hj'
        rcases (holds_set_iff (e :: q') q' b _ cs i chold hi j e').mp hj with
          ⟨hji, hph⟩ | ⟨hji, holdj⟩ <;>
          rcases (holds_set_iff (e :: q') q' b _ cs i chold hi j' e').mp hj' with
            ⟨hj'i, hph'⟩ | ⟨hj'i, holdj'⟩
        · rw [hji, hj'i]
        · simp only [hchold] at hph
          injection hph with h2
          subst h2
          exact absurd ⟨j', holdj'⟩ hnh
        · simp only [hchold] at hph'
          injection hph' with h2
          subst h2
          exact absurd ⟨j, holdj⟩ hnh
        · exact Iun j j' e' holdj holdj'
      · intro e' he'
        by_cases hee : e' = e
        · subst hee
          exact Or.inr (Function.update_same e' true b)
        · rcases Icons e' he' with hq | hbusy
          · rcases List.mem_cons.mp hq with h | h
            · exact absurd h hee
            · exact Or.inl h
          · exact Or.inr (by rw [Function.update_noteq hee]; exact hbusy)
    | requeueBusy q' b cs i e c ev hc hpc hb =>
      obtain ⟨Iq, _, _, _, _, _, _⟩ := ih
      dsimp only at Iq
      have hbe := Iq e (List.mem_cons_self e q')
      rw [hb] at hbe
      exact absurd hbe (by simp)
    | abortWaitNone q b cs i c hc hpc =>
      obtain ⟨Iq, Ind, Isub, Ic, Ibh, Iun, Icons⟩ := ih
      dsimp only at Iq Ind Isub Ic Ibh Iun Icons
      have hi : i < cs.length := (List.getElem?_eq_some.mp hc).1
      have hcok := (Ic i c hc).1 none hpc
      set cfin : AcqCaller :=
        { pc := .finished, acquired := c.acquired, released := c.released } with hcfin
      have hset : ∀ j e', holds ⟨q, b, cs.set i cfin⟩ j e' ↔
          (j ≠ i ∧ holds ⟨q, b, cs⟩ j e') := by
        intro j e'
        rw [holds_set_iff q q b b cs i cfin hi j e']
        constructor
        · rintro (⟨_, hph⟩ | hh)
          · simp [hcfin] at hph
          · exact hh
        · exact Or.inr
      have hnoti : ∀ e', ¬ holds ⟨q, b, cs⟩ i e' := by
        rintro e' ⟨ci, hci, hpci⟩
        rw [hc] at hci
        injection hci with h'
        subst h'
        rw [hpc] at hpci
        simp at hpci
      refine ⟨Iq, Ind, Isub, ?_, ?_, ?_, Icons⟩ <;> dsimp only
      · intro j cj hcj
        by_cases hj : j = i
        · subst hj
          rw [getElem?_set_self_of_lt _ _ _ hi] at hcj
          injection hcj with h'
          subst h'
          refine ⟨?_, ?_, ?_⟩
          · intro ev' hev'
            simp [hcfin] at hev'
          · intro e' he'
            simp [hcfin] at he'
          · intro _
            simp [hcfin, hcok.2.1, hcok.2.2]
        · rw [List.getElem?_set_ne (fun h => hj h.symm)] at hcj
          exact Ic j cj hcj
      · intro e'
        rw [Ibh e']
        constructor
        · rintro ⟨j, hj⟩
          by_cases hji : j = i
          · subst hji
            exact absurd hj (hnoti e')
          · exact ⟨j, (hset j e').mpr ⟨hji, hj⟩⟩
        · rintro ⟨j, hj⟩
          exact ⟨j, ((hset j e').mp hj).2⟩
      · intro j j' e' hj hj'
        exact Iun j j' e' ((hset j e').mp hj).2 ((hset j' e').mp hj').2
    | abortWaitSome q b cs i e c hc hpc =>
      obtain ⟨_, _, _, Ic, _, _, _⟩ := ih
      dsimp only at Ic
      have := ((Ic i c hc).1 (some e) hpc).1
      simp at this
    | release q b cs i e c hc hpc =>
      obtain ⟨Iq, Ind, Isub, Ic, Ibh, Iun, Icons⟩ := ih
      dsimp only at Iq Ind Isub Ic Ibh Iun Icons
      have hi : i < cs.length := (List.getElem?_eq_some.mp hc).1
      obtain ⟨he_mem, hbusy, hnotq, hacq, hrel⟩ := (Ic i c hc).2.1 e hpc
      dsimp only at hbusy hnotq
      have hiholds : holds ⟨q, b, cs⟩ i e := ⟨c, hc, hpc⟩
      set cfin : AcqCaller :=
        { pc := .finished, acquired := c.acquired, released := c.released + 1 } with hcfin
      have hset : ∀ j e', holds ⟨q ++ [e], Function.update b e false, cs.set i cfin⟩ j e' ↔
          (j ≠ i ∧ holds ⟨q, b, cs⟩ j e') := by
        intro j e'
        rw [holds_set_iff q (q ++ [e]) b (Function.update b e false) cs i cfin hi j e']
        constructor
        · rintro (⟨_, hph⟩ | hh)
          · simp [hcfin] at hph
          · exact hh
        · exact Or.inr
      refine ⟨?_, ?_, ?_, ?_, ?_, ?_, ?_⟩ <;> dsimp only
      · intro e' he'
        rcases List.mem_append.mp he' with h | h
        · have hne : e' ≠ e := fun hh => hnotq (hh ▸ h)
          rw [Function.update_noteq hne]
          exact Iq e' h
        · rw [List.mem_singleton.mp h]
          exact Function.update_same e false b
      · rw [List.nodup_append]
        refine ⟨Ind, List.nodup_singleton e, ?_⟩
        intro a ha hb'
        rw [List.mem_singleton.mp hb'] at ha
        exact hnotq ha
      · intro e' he'
        rcases List.mem_append.mp he' with h | h
        · exact Isub e' h
        · rw [List.mem_singleton.mp h]
          exact he_mem
      · intro j cj hcj
        by_cases hj : j = i
        · subst hj
          rw [getElem?_set_self_of_lt _ _ _ hi] at hcj
          injection hcj with h'
          subst h'
          refine ⟨?_, ?_, ?_⟩
          · intro ev' hev'
            simp [hcfin] at hev'
          · intro e' he'
            simp [hcfin] at he'
          · intro _
            simp [hcfin, hacq, hrel]
        · rw [List.getElem?_set_ne (fun h => hj h.symm)] at hcj
          obtain ⟨ol, oh, of⟩ := Ic j cj hcj
          refine ⟨ol, ?_, of⟩
          intro e' he'
          obtain ⟨hm, hbusy', hq', hacq', hrel'⟩ := oh e' he'
          dsimp only at hbusy' hq'
          have hne : e' ≠ e := by
            intro hh
            subst hh
            exact hj (Iun j i e' ⟨cj, hcj, he'⟩ hiholds)
          refine ⟨hm, by (try dsimp only); rw [Function.update_noteq hne]; exact hbusy', ?_, hacq', hrel'⟩
          intro hmem
          rcases List.mem_append.mp hmem with hh | hh
          · exact hq' hh
          · exact hne (List.mem_singleton.mp hh)
      · intro e'
        by_cases hee : e' = e
        · subst hee
          rw [Function.update_same]
          constructor
          · intro hfalse
            simp at hfalse
          · rintro ⟨j, hj⟩
            have h2 := (hset j e').mp hj
            exact absurd (Iun j i e' h2.2 hiholds) h2.1
        · rw [Function.update_noteq hee, Ibh e']
          constructor
          · rintro ⟨j, hj⟩
            refine ⟨j, (hset j e').mpr ⟨?_, hj⟩⟩
            intro hh
            subst hh
            obtain ⟨cj, hcj, hpcj⟩ := hj
            rw [hc] at hcj
            injection hcj with h'
            subst h'
            rw [hpc] at hpcj
            injection hpcj with h2
            exact hee h2.symm
          · rintro ⟨j, hj⟩
            exact ⟨j, ((hset j e').mp hj).2⟩
      · intro j j' e' hj hj'
        exact Iun j j' e' ((hset j e').mp hj).2 ((hset j' e').mp hj').2
      · intro e' he'
        by_cases hee : e' = e
        · subst hee
          exact Or.inl (List.mem_append.mpr (Or.inr (List.mem_singleton_self e')))
        · rcases Icons e' he' with hh | hh
          · exact Or.inl (List.mem_append.mpr (Or.inl hh))
          · exact Or.inr (by rw [Function.update_noteq hee]; exact hh)

/-- Claim C1: in every pool state reachable by any interleaving of
acquire attempts (including ones that end in timeout or cancellation)
and releases, an endpoint of the pool is in the available queue iff it
is not held by any caller, each endpoint occurs at most once in the
queue, at most one caller holds a given endpoint, and handles are
released exactly once: a finished caller released exactly as many times
as it acquired (at most once), and no caller ever releases more than
once. -/
theorem endpoint_pool_exclusivity (K : Nat) (s : PoolState) (h : PoolReached K s) :
    (∀ e ∈ poolIds K, (e ∈ s.queue ↔ ¬ ∃ i, holds s i e))
    ∧ s.queue.Nodup
    ∧ (∀ i j e, holds s i e → holds s j e → i = j)
    ∧ (∀ (i : Nat) (c : AcqCaller), s.callers[i]? = some c →
        c.released ≤ 1
        ∧ (c.pc = .finished → c.released = c.acquired ∧ c.acquired ≤ 1)
        ∧ (∀ e, c.pc = .holding e → c.acquired = 1 ∧ c.released = 0)) := by
  obtain ⟨Iq, Ind, Isub, Ic, Ibh, Iun, Icons⟩ := poolInv_of_reached K s h
  refine ⟨?_, Ind, Iun, ?_⟩
  · intro e he
    constructor
    · intro hq hex
      have hbe := (Ibh e).mpr hex
      rw [Iq e hq] at hbe
      exact absurd hbe (by simp)
    · intro hnh
      rcases Icons e he with hq | hb
      · exact hq
      · exact absurd ((Ibh e).mp hb) hnh
  · intro i c hc
    obtain ⟨cl, ch, cf⟩ := Ic i c hc
    refine ⟨?_, cf, ?_⟩
    · cases hpc : c.pc with
      | looping ev =>
        have := (cl ev hpc).2.2
        omega
      | holding e =>
        have := (ch e hpc).2.2.2.2
        omega
      | finished =>
        have h1 := (cf hpc).1
        have h2 := (cf hpc).2
        omega
    · intro e hpc
      have hh := ch e hpc
      exact ⟨hh.2.2.2.1, hh.2.2.2.2⟩

/-- Claim C5: a caller waiting in `get_endpoint`'s acquisition loop can
always fail with `TimeoutError` (the wait bound defaults to 10
seconds), which changes no pool state and grants no endpoint, rather
than blocking forever; any step that does grant it an endpoint grants
one held by no other caller; and in the generation lane
`process_single_request` converts the error into a single
`success:false` response for just that request, letting no exception
escape to the driving loop. -/
theorem pool_timeout_reported (K : Nat) (s : PoolState) (i : Nat) (c : AcqCaller)
    (ev : Option Nat) (h : PoolReached K s) (hc : s.callers[i]? = some c)
    (hpc : c.pc = .looping ev) (rid : Option String) (err : PyError)
    (send_ws : Response → Option String) :
    get_endpoint_default_max_wait = 10
    ∧ PoolStep K s
        ⟨s.queue, s.busy,
         s.callers.set i { pc := .finished, acquired := c.acquired, released := c.released }⟩
    ∧ c.acquired = 0
    ∧ (∀ (s' : PoolState) (c' : AcqCaller) (e : Nat), PoolStep K s s' →
        s'.callers[i]? = some c' → c'.pc = .holding e → ¬ ∃ j, holds s j e)
    ∧ (process_single_request (.error err) send_ws rid).attempts
        = [{ action := "generate_video", requestId := rid, success := false,
             error := some ("Video generation error: " ++ err.msg) }]
    ∧ (process_single_request (.error err) send_ws rid).uncaught = none := by
  obtain ⟨Iq, Ind, Isub, Ic, Ibh, Iun, Icons⟩ := poolInv_of_reached K s h
  have hev : ev = none := ((Ic i c hc).1 ev hpc).1
  subst hev
  have hi : i < s.callers.length := (List.getElem?_eq_some.mp hc).1
  refine ⟨rfl, ?_, ((Ic i c hc).1 none hpc).2.1, ?_, ?_, ?_⟩
  · exact PoolStep.abortWaitNone s.queue s.busy s.callers i c hc hpc
  · intro s' c' e hstep
    cases hstep with
    | enter q b cs =>
      intro hc' hpc'
      dsimp only at hc' hc
      have hilt : i < cs.length := (List.getElem?_eq_some.mp hc).1
      rw [List.getElem?_append_left hilt, hc] at hc'
      injection hc' with h'
      subst h'
      rw [hpc] at hpc'
      simp at hpc'
    | acquire q' b cs i' e' c2 ev2 hc2 hpc2 hb2 =>
      intro hc' hpc'
      dsimp only at hc' hc
      by_cases hii : i = i'
      · subst hii
        have hilt : i < cs.length := (List.getElem?_eq_some.mp hc).1
        rw [getElem?_set_self_of_lt _ _ _ hilt] at hc'
        injection hc' with h'
        subst h'
        injection hpc' with h2
        rintro ⟨j, hj⟩
        rw [← h2] at hj
        have hbe := (Ibh e').mpr ⟨j, hj⟩
        dsimp only at hbe
        rw [hb2] at hbe
        exact absurd hbe (by simp)
      · rw [List.getElem?_set_ne (fun hh => hii hh.symm), hc] at hc'
        injection hc' with h'
        subst h'
        rw [hpc] at hpc'
        simp at hpc'
    | requeueBusy q' b cs i' e' c2 ev2 hc2 hpc2 hb2 =>
      intro hc' hpc'
      dsimp only at hc' hc
      by_cases hii : i = i'
      · subst hii
        have hilt : i < cs.length := (List.getElem?_eq_some.mp hc).1
        rw [getElem?_set_self_of_lt _ _ _ hilt] at hc'
        injection hc' with h'
        subst h'
        simp at hpc'
      · rw [List.getElem?_set_ne (fun hh => hii hh.symm), hc] at hc'
        injection hc' with h'
        subst h'
        rw [hpc] at hpc'
        simp at hpc'
    | abortWaitNone q b cs i' c2 hc2 hpc2 =>
      intro hc' hpc'
      dsimp only at hc' hc
      by_cases hii : i = i'
      · subst hii
        have hilt : i < cs.length := (List.getElem?_eq_some.mp hc).1
        rw [getElem?_set_self_of_lt _ _ _ hilt] at hc'
        injection hc' with h'
        subst h'
        simp at hpc'
      · rw [List.getElem?_set_ne (fun hh => hii hh.symm), hc] at hc'
        injection hc' with h'
        subst h'
        rw [hpc] at hpc'
        simp at hpc'
    | abortWaitSome q b cs i' e' c2 hc2 hpc2 =>
      intro hc' hpc'
      dsimp only at hc' hc
      by_cases hii : i = i'
      · subst hii
        have hilt : i < cs.length := (List.getElem?_eq_some.mp hc).1
        rw [getElem?_set_self_of_lt _ _ _ hilt] at hc'
        injection hc' with h'
        subst h'
        simp at hpc'
      · rw [List.getElem?_set_ne (fun hh => hii hh.symm), hc] at hc'
        injection hc' with h'
        subst h'
        rw [hpc] at hpc'
        simp at hpc'
    | release q b cs i' e' c2 hc2 hpc2 =>
      intro hc' hpc'
      dsimp only at hc' hc
      by_cases hii : i = i'
      · subst hii
        have hilt : i < cs.length := (List.getElem?_eq_some.mp hc).1
        rw [getElem?_set_self_of_lt _ _ _ hilt] at hc'
        injection hc' with h'
        subst h'
        simp at hpc'
      · rw [List.getElem?_set_ne (fun hh => hii hh.symm), hc] at hc'
        injection hc' with h'
        subst h'
        rw [hpc] at hpc'
        simp at hpc'
  · unfold process_single_request
    dsimp only
    split <;> rfl
  · unfold process_single_request
    dsimp only
    split <;> rfl

theorem videoLane_tasks_le (K : Nat) (s : VideoLaneState) (h : VideoLaneReached K s) :
    s.active_tasks.length ≤ K := by
  induction h with
  | init => simp
  | step hr hs ih =>
    cases hs with
    | enqueue q t r => exact ih
    | spawn q t r hlt =>
      dsimp only at ih ⊢
      rw [List.length_append]
      simp only [List.length_singleton]
      omega
    | complete q t1 t2 r =>
      dsimp only at ih ⊢
      rw [List.length_append] at ih ⊢
      simp only [List.length_cons] at ih
      omega

/-- Claim C3: in every reachable state of a connection's generation
lane, at most `K` tasks are in flight, where `K = MAX_CONCURRENT` is
the endpoint pool's total endpoint count (one endpoint per configured
round-robin URL); and any step that starts a new task requires fewer
than `K` tasks in flight, so a `(K+1)`-th queued request starts only
after an in-flight task completes. -/
theorem generation_lane_bounded (urls : List String) (s : VideoLaneState)
    (h : VideoLaneReached (MAX_CONCURRENT urls) s) :
    s.active_tasks.length ≤ (initialize_endpoints urls).length
    ∧ MAX_CONCURRENT urls = (initialize_endpoints urls).length
    ∧ (∀ s', VideoLaneStep (MAX_CONCURRENT urls) s s' →
        s.active_tasks.length < s'.active_tasks.length →
        s.active_tasks.length < MAX_CONCURRENT urls) := by
  have hK : (initialize_endpoints urls).length = MAX_CONCURRENT urls := by
    simp [MAX_CONCURRENT, initialize_endpoints]
  refine ⟨by rw [hK]; exact videoLane_tasks_le _ s h, hK.symm, ?_⟩
  intro s' hs hlt
  cases hs with
  | enqueue q t r =>
    dsimp only at hlt
    omega
  | spawn q t r hlt2 => exact hlt2
  | complete q t1 t2 r =>
    dsimp only at hlt
    rw [List.length_append, List.length_append] at hlt
    simp only [List.length_cons] at hlt
    omega

/-- Claim C4: when every websocket send succeeds, a sequence of `N`
requests through the search lane or the chat lane of one connection
yields exactly `N` responses, in submission order, each tagged with the
lane's action and the request id of the request it answers. -/
theorem lane_responses_ordered_and_correlated (C : Type) [DecidableEq C]
    (search_video : SearchData → SearchOutcome) (send_ws : Response → Option String)
    (send_ok : C → Bool) (now : String) (items : List SearchData)
    (citems : List ChatItem) (st : ApiState C) (ws : C)
    (hsend : ∀ r, send_ws r = none) :
    ((process_search_queue search_video send_ws items).emitted).map
        (fun r => (r.action, r.requestId))
      = items.map (fun d => ("search", d.requestId))
    ∧ (((process_chat_queue send_ok send_ws now ws st citems).2).emitted).map
        (fun r => (r.action, r.requestId))
      = citems.map (fun it => (it.action.name, it.data.requestId)) :=
  ⟨process_search_queue_emit search_video send_ws hsend items,
   process_chat_queue_emit C send_ok send_ws now ws hsend citems st⟩

/-- Claim C6: a failure while processing one item of a sequential lane
(handler raising, or a send failing) is converted into a `success:false`
response attempt addressed to that item's request id, and never escapes
the iteration: the worker loop processes every queued item.  Conjuncts:
the failing search item gets an error attempt with its id; no search or
chat iteration lets an exception escape; the queue runs therefore visit
every item (the attempts of a run are the concatenation of the per-item
attempts, and the chat run attempts at least one response per item);
every chat attempt carries its item's request id; a failed search
result send is followed by an internal-error response for the same id;
a chat item whose handler raises yields exactly the `success:false`
`Chat error` attempt for its request id; and a chat item whose result
send fails (for each of the three actions) is followed by the
`success:false` `Chat error` attempt for its request id. -/
theorem lane_failures_isolated (C : Type) [DecidableEq C]
    (search_video : SearchData → SearchOutcome) (send_ws : Response → Option String)
    (send_ok : C → Bool) (now : String) (d : SearchData) (m : String)
    (items : List SearchData) (citems : List ChatItem) (st : ApiState C) (ws : C)
    (hfail : search_video d = .raised m) :
    (∃ r ∈ (search_step search_video send_ws d).attempts,
        r.success = false ∧ r.requestId = d.requestId)
    ∧ (∀ d', (search_step search_video send_ws d').uncaught = none)
    ∧ (∀ (st' : ApiState C) (it' : ChatItem),
        (chat_step send_ok send_ws now st' it' ws).2.uncaught = none)
    ∧ (process_search_queue search_video send_ws items).attempts
        = items.flatMap (fun d' => (search_step search_video send_ws d').attempts)
    ∧ (process_search_queue search_video send_ws items).uncaught = none
    ∧ ((process_chat_queue send_ok send_ws now ws st citems).2).uncaught = none
    ∧ citems.length
        ≤ ((process_chat_queue send_ok send_ws now ws st citems).2).attempts.length
    ∧ (∀ (st' : ApiState C) (it' : ChatItem),
        ∀ r ∈ (chat_step send_ok send_ws now st' it' ws).2.attempts,
          r.requestId = it'.data.requestId)
    ∧ (∀ (d' : SearchData) (m' : String),
        send_ws (search_item_result search_video d') = some m' →
          (search_step search_video send_ws d').attempts
            = [search_item_result search_video d',
               { action := "search", requestId := d'.requestId, success := false,
                 error := some ("Internal server error: " ++ m') }])
    ∧ (∀ (st' : ApiState C) (d' : ChatData) (e : PyError),
        (handle_chat_message send_ok now st' d' ws).result = .error e →
          (chat_step send_ok send_ws now st' ⟨.chat_message, d'⟩ ws).2.attempts
            = [{ action := "chat_message", requestId := d'.requestId, success := false,
                 error := some ("Chat error: " ++ e.msg) }])
    ∧ (∀ (st' : ApiState C) (d' : ChatData) (r0 : Response) (m' : String),
        (handle_chat_message send_ok now st' d' ws).result = .ok r0 →
        send_ws r0 = some m' →
          (chat_step send_ok send_ws now st' ⟨.chat_message, d'⟩ ws).2.attempts
            = [r0, { action := "chat_message", requestId := d'.requestId, success := false,
                     error := some ("Chat error: " ++ m') }])
    ∧ (∀ (st' : ApiState C) (d' : ChatData) (m' : String),
        send_ws (handle_join_chat st' d' ws).1 = some m' →
          (chat_step send_ok send_ws now st' ⟨.join_chat, d'⟩ ws).2.attempts
            = [(handle_join_chat st' d' ws).1,
               { action := "join_chat", requestId := d'.requestId, success := false,
                 error := some ("Chat error: " ++ m') }])
    ∧ (∀ (st' : ApiState C) (d' : ChatData) (m' : String),
        send_ws (handle_leave_chat st' d' ws).1 = some m' →
          (chat_step send_ok send_ws now st' ⟨.leave_chat, d'⟩ ws).2.attempts
            = [(handle_leave_chat st' d' ws).1,
               { action := "leave_chat", requestId := d'.requestId, success := false,
                 error := some ("Chat error: " ++ m') }]) := by
  refine ⟨⟨search_item_result search_video d, search_step_attempts_head _ _ d,
      search_item_result_failure _ d m hfail, (search_item_result_shape _ d).2⟩,
    fun d' => search_step_uncaught _ _ d',
    fun st' it' => chat_step_uncaught C send_ok send_ws now st' it' ws,
    (process_search_queue_run _ _ items).1,
    (process_search_queue_run _ _ items).2,
    (process_chat_queue_run C send_ok send_ws now ws citems st).1,
    (process_chat_queue_run C send_ok send_ws now ws citems st).2,
    fun st' it' => chat_step_attempts_id C send_ok send_ws now st' it' ws,
    ?_, ?_, ?_, ?_, ?_⟩
  · intro d' m' hsw
    unfold search_step
    dsimp only
    rw [hsw]
    dsimp only
    split <;> rfl
  · intro st' d' e hres
    unfold chat_step
    dsimp only
    rw [hres]
    dsimp only
    split <;> rfl
  · intro st' d' r0 m' hres hsw
    unfold chat_step
    dsimp only
    rw [hres]
    dsimp only
    rw [hsw]
    dsimp only
    split <;> rfl
  · intro st' d' m' hsw
    rcases hp : handle_join_chat st' d' ws with ⟨r0, st0⟩
    rw [hp] at hsw
    dsimp only at hsw ⊢
    unfold chat_step
    dsimp only
    rw [hp]
    dsimp only
    rw [hsw]
    dsimp only
    split <;> rfl
  · intro st' d' m' hsw
    rcases hp : handle_leave_chat st' d' ws with ⟨r0, st0⟩
    rw [hp] at hsw
    dsimp only at hsw ⊢
    unfold chat_step
    dsimp only
    rw [hp]
    dsimp only
    rw [hsw]
    dsimp only
    split <;> rfl

theorem endpoint_pool_exclusivity_witness :
    PoolReached 1 poolSample
    ∧ ((∀ e ∈ poolIds 1, (e ∈ poolSample.queue ↔ ¬ ∃ i, holds poolSample i e))
      ∧ poolSample.queue.Nodup
      ∧ (∀ i j e, holds poolSample i e → holds poolSample j e → i = j)
      ∧ (∀ (i : Nat) (c : AcqCaller), poolSample.callers[i]? = some c →
          c.released ≤ 1
          ∧ (c.pc = .finished → c.released = c.acquired ∧ c.acquired ≤ 1)
          ∧ (∀ e, c.pc = .holding e → c.acquired = 1 ∧ c.released = 0))) :=
  have hr : PoolReached 1 poolSample :=
    PoolReached.step
      (PoolReached.step
        (PoolReached.step PoolReached.init
          (PoolStep.enter (poolIds 1) (fun _ => false) []))
        (PoolStep.acquire [] (fun _ => false) ([] ++ [({ pc := .looping none } : AcqCaller)]) 0 1
          { pc := .looping none } none rfl rfl rfl))
      (PoolStep.release [] (Function.update (fun _ => false) 1 true)
        ((([] : List AcqCaller) ++ [({ pc := .looping none } : AcqCaller)]).set 0
          ({ pc := .holding 1, acquired := 0 + 1, released := 0 } : AcqCaller)) 0 1
        { pc := .holding 1, acquired := 0 + 1, released := 0 } rfl rfl)
  ⟨hr, endpoint_pool_exclusivity 1 poolSample hr⟩

theorem pool_timeout_reported_witness :
    PoolReached 1 poolWaiting
    ∧ poolWaiting.callers[0]? = some { pc := .looping none }
    ∧ ({ pc := .looping none } : AcqCaller).pc = .looping none
    ∧ (get_endpoint_default_max_wait = 10
      ∧ PoolStep 1 poolWaiting
          ⟨poolWaiting.queue, poolWaiting.busy,
           poolWaiting.callers.set 0
             { pc := .finished, acquired := 0, released := 0 }⟩
      ∧ (({ pc := .looping none } : AcqCaller)).acquired = 0
      ∧ (∀ (s' : PoolState) (c' : AcqCaller) (e : Nat), PoolStep 1 poolWaiting s' →
          s'.callers[0]? = some c' → c'.pc = .holding e → ¬ ∃ j, holds poolWaiting j e)
      ∧ (process_single_request
            (.error (.timeoutError "Could not acquire an endpoint within 10 seconds"))
            (fun _ => none) (some "r1")).attempts
          = [{ action := "generate_video", requestId := some "r1", success := false,
               error := some ("Video generation error: "
                 ++ "Could not acquire an endpoint within 10 seconds") }]
      ∧ (process_single_request
            (.error (.timeoutError "Could not acquire an endpoint within 10 seconds"))
            (fun _ => none) (some "r1")).uncaught = none) :=
  have hr : PoolReached 1 poolWaiting :=
    PoolReached.step PoolReached.init (PoolStep.enter (poolIds 1) (fun _ => false) [])
  ⟨hr, rfl, rfl,
   pool_timeout_reported 1 poolWaiting 0 { pc := .looping none } none hr rfl rfl
     (some "r1") (.timeoutError "Could not acquire an endpoint within 10 seconds")
     (fun _ => none)⟩

theorem generation_lane_bounded_witness :
    VideoLaneReached (MAX_CONCURRENT ["u1", "u2"]) videoLaneSample
    ∧ (videoLaneSample.active_tasks.length ≤ (initialize_endpoints ["u1", "u2"]).length
      ∧ MAX_CONCURRENT ["u1", "u2"] = (initialize_endpoints ["u1", "u2"]).length
      ∧ (∀ s', VideoLaneStep (MAX_CONCURRENT ["u1", "u2"]) videoLaneSample s' →
          videoLaneSample.active_tasks.length < s'.active_tasks.length →
          videoLaneSample.active_tasks.length < MAX_CONCURRENT ["u1", "u2"])) :=
  have hr : VideoLaneReached (MAX_CONCURRENT ["u1", "u2"]) videoLaneSample :=
    VideoLaneReached.step
      (VideoLaneReached.step
        (VideoLaneReached.step
          (VideoLaneReached.step VideoLaneReached.init
            (VideoLaneStep.enqueue [] [] (some "a")))
          (VideoLaneStep.spawn [] [] (some "a") (by decide)))
        (VideoLaneStep.enqueue [] ([] ++ [some "a"]) (some "b")))
      (VideoLaneStep.spawn [] ([] ++ [some "a"]) (some "b") (by decide))
  ⟨hr, generation_lane_bounded ["u1", "u2"] videoLaneSample hr⟩

theorem lane_responses_ordered_witness :
    (∀ r : Response, (fun _ : Response => (none : Option String)) r = none)
    ∧ (((process_search_queue (fun _ => .notFound) (fun _ => none)
          [{ requestId := some "s1", query := some "cats" },
           { requestId := some "s2", query := some "dogs" }]).emitted).map
            (fun r => (r.action, r.requestId))
        = [("search", some "s1"), ("search", some "s2")])
    ∧ ((((process_chat_queue (fun _ : Nat => true) (fun _ => none) "t0" 0 (initApiState Nat)
          [⟨.join_chat, { videoId := some "T", requestId := some "c1" }⟩,
           ⟨.chat_message, { videoId := some "T", requestId := some "c2" }⟩,
           ⟨.leave_chat, { videoId := some "T", requestId := some "c3" }⟩]).2).emitted).map
            (fun r => (r.action, r.requestId))
        = [("join_chat", some "c1"), ("chat_message", some "c2"), ("leave_chat", some "c3")]) :=
  have hmain := lane_responses_ordered_and_correlated Nat (fun _ => .notFound)
    (fun _ => none) (fun _ => true) "t0"
    [{ requestId := some "s1", query := some "cats" },
     { requestId := some "s2", query := some "dogs" }]
    [⟨.join_chat, { videoId := some "T", requestId := some "c1" }⟩,
     ⟨.chat_message, { videoId := some "T", requestId := some "c2" }⟩,
     ⟨.leave_chat, { videoId := some "T", requestId := some "c3" }⟩]
    (initApiState Nat) 0 (fun _ => rfl)
  ⟨fun _ => rfl, hmain.1.trans (by rfl), hmain.2.trans (by rfl)⟩

theorem lane_failures_isolated_witness :
    (fun _ : SearchData => SearchOutcome.raised "boom")
        { requestId := some "q1", query := some "cats" } = .raised "boom"
    ∧ ((∃ r ∈ (search_step (fun _ => .raised "boom") (fun _ => none)
          { requestId := some "q1", query := some "cats" }).attempts,
        r.success = false ∧ r.requestId = some "q1")
      ∧ (∀ d', (search_step (fun _ => .raised "boom") (fun _ => none) d').uncaught = none)
      ∧ (∀ (st' : ApiState Nat) (it' : ChatItem),
          (chat_step (fun _ => true) (fun _ => none) "t0" st' it' 0).2.uncaught = none)
      ∧ (process_search_queue (fun _ => .raised "boom") (fun _ => none)
            [{ requestId := some "q1", query := some "cats" }]).attempts
          = [{ requestId := some "q1", query := some "cats" }].flatMap
              (fun d' => (search_step (fun _ => .raised "boom") (fun _ => none) d').attempts)
      ∧ (process_search_queue (fun _ => .raised "boom") (fun _ => none)
            [{ requestId := some "q1", query := some "cats" }]).uncaught = none
      ∧ ((process_chat_queue (fun _ => true) (fun _ => none) "t0" 0 (initApiState Nat)
            [⟨.join_chat, { videoId := some "T", requestId := some "c1" }⟩]).2).uncaught = none
      ∧ [(⟨.join_chat, { videoId := some "T", requestId := some "c1" }⟩ : ChatItem)].length
          ≤ ((process_chat_queue (fun _ => true) (fun _ => none) "t0" 0 (initApiState Nat)
              [⟨.join_chat, { videoId := some "T", requestId := some "c1" }⟩]).2).attempts.length
      ∧ (∀ (st' : ApiState Nat) (it' : ChatItem),
          ∀ r ∈ (chat_step (fun _ => true) (fun _ => none) "t0" st' it' 0).2.attempts,
            r.requestId = it'.data.requestId)
      ∧ (∀ (d' : SearchData) (m' : String),
          (fun _ : Response => (none : Option String)) (search_item_result (fun _ => .raised "boom") d') = some m' →
            (search_step (fun _ => .raised "boom") (fun _ => none) d').attempts
              = [search_item_result (fun _ => .raised "boom") d',
                 { action := "search", requestId := d'.requestId, success := false,
                   error := some ("Internal server error: " ++ m') }])
      ∧ (∀ (st' : ApiState Nat) (d' : ChatData) (e : PyError),
          (handle_chat_message (fun _ => true) "t0" st' d' 0).result = .error e →
            (chat_step (fun _ => true) (fun _ => none) "t0" st' ⟨.chat_message, d'⟩ 0).2.attempts
              = [{ action := "chat_message", requestId := d'.requestId, success := false,
                   error := some ("Chat error: " ++ e.msg) }])
      ∧ (∀ (st' : ApiState Nat) (d' : ChatData) (r0 : Response) (m' : String),
          (handle_chat_message (fun _ => true) "t0" st' d' 0).result = .ok r0 →
          (fun _ : Response => (none : Option String)) r0 = some m' →
            (chat_step (fun _ => true) (fun _ => none) "t0" st' ⟨.chat_message, d'⟩ 0).2.attempts
              = [r0, { action := "chat_message", requestId := d'.requestId, success := false,
                       error := some ("Chat error: " ++ m') }])
      ∧ (∀ (st' : ApiState Nat) (d' : ChatData) (m' : String),
          (fun _ : Response => (none : Option String)) (handle_join_chat st' d' 0).1 = some m' →
            (chat_step (fun _ => true) (fun _ => none) "t0" st' ⟨.join_chat, d'⟩ 0).2.attempts
              = [(handle_join_chat st' d' 0).1,
                 { action := "join_chat", requestId := d'.requestId, success := false,
                   error := some ("Chat error: " ++ m') }])
      ∧ (∀ (st' : ApiState Nat) (d' : ChatData) (m' : String),
          (fun _ : Response => (none : Option String)) (handle_leave_chat st' d' 0).1 = some m' →
            (chat_step (fun _ => true) (fun _ => none) "t0" st' ⟨.leave_chat, d'⟩ 0).2.attempts
              = [(handle_leave_chat st' d' 0).1,
                 { action := "leave_chat", requestId := d'.requestId, success := false,
                   error := some ("Chat error: " ++ m') }])) :=
  ⟨rfl, lane_failures_isolated Nat (fun _ => .raised "boom") (fun _ => none) (fun _ => true)
    "t0" { requestId := some "q1", query := some "cats" } "boom"
    [{ requestId := some "q1", query := some "cats" }]
    [⟨.join_chat, { videoId := some "T", requestId := some "c1" }⟩]
    (initApiState Nat) 0 rfl⟩

theorem missing_topic_id_rejected_witness :
    isFalsyStr (none : Option String) = true
    ∧ (handle_chat_message (fun _ : Nat => true) "t0" (initApiState Nat)
          { requestId := some "r9" } 0 =
        { result := .ok { action := "chat_message", requestId := some "r9", success := false,
                          error := some "No video ID provided" },
          state := initApiState Nat, delivered := [] }
      ∧ handle_join_chat (initApiState Nat) { requestId := some "r9" } 0 =
        ({ action := "join_chat", requestId := some "r9", success := false,
           error := some "No video ID provided" }, initApiState Nat)
      ∧ handle_leave_chat (initApiState Nat) { requestId := some "r9" } 0 =
        ({ action := "leave_chat", requestId := some "r9", success := false,
           error := some "No video ID provided" }, initApiState Nat)) :=
  ⟨rfl, missing_topic_id_rejected Nat (fun _ => true) "t0" (initApiState Nat)
    { requestId := some "r9" } 0 rfl⟩

theorem chat_message_stored_witness :
    isFalsyStr c2_data.videoId = false
    ∧ (((handle_chat_message (fun _ : Nat => false) "t0" c2_state c2_data 0).state.video_events
          (c2_data.videoId.getD "")
        = boundedAppend event_history_limit (c2_state.video_events (c2_data.videoId.getD ""))
            { time := "t0", event := "new_chat_message",
              username := some (c2_data.username.getD "Anonymous"),
              data := some (c2_data.content.getD "") })
      ∧ (((handle_chat_message (fun _ : Nat => false) "t0" c2_state c2_data 0).state.chat_rooms
            (c2_data.videoId.getD "")).messages
          = boundedAppend ChatRoom.max_history
              ((c2_state.chat_rooms (c2_data.videoId.getD "")).messages) c2_data)
      ∧ c2_data ∈ ((handle_chat_message (fun _ : Nat => false) "t0" c2_state c2_data 0).state.chat_rooms
            (c2_data.videoId.getD "")).messages) :=
  ⟨rfl, chat_message_stored_despite_delivery_failure Nat (fun _ => false) "t0" c2_state
    c2_data 0 rfl⟩

theorem leave_chat_idempotent_witness :
    isFalsyStr (({ videoId := some "T", requestId := some "r5" } : ChatData)).videoId = false
    ∧ ((c2_state.chat_rooms
          ((({ videoId := some "T", requestId := some "r5" } : ChatData)).videoId.getD
            "")).connected_clients).Nodup
    ∧ ((handle_leave_chat c2_state { videoId := some "T", requestId := some "r5" } 1).1 =
        { action := "leave_chat", requestId := some "r5", success := true }
      ∧ (1 : Nat) ∉ (((handle_leave_chat c2_state
            { videoId := some "T", requestId := some "r5" } 1).2).chat_rooms
            (({ videoId := some "T", requestId := some "r5" } : ChatData).videoId.getD
              "")).connected_clients
      ∧ handle_leave_chat
            (handle_leave_chat c2_state { videoId := some "T", requestId := some "r5" } 1).2
            { videoId := some "T", requestId := some "r5" } 1
          = handle_leave_chat c2_state { videoId := some "T", requestId := some "r5" } 1
      ∧ (∀ c, c ≠ 1 →
          (c ∈ (((handle_leave_chat c2_state
                { videoId := some "T", requestId := some "r5" } 1).2).chat_rooms
                (({ videoId := some "T", requestId := some "r5" } : ChatData).videoId.getD
                  "")).connected_clients
            ↔ c ∈ (c2_state.chat_rooms
                (({ videoId := some "T", requestId := some "r5" } : ChatData).videoId.getD
                  "")).connected_clients))
      ∧ (((handle_leave_chat c2_state
            { videoId := some "T", requestId := some "r5" } 1).2).chat_rooms
            (({ videoId := some "T", requestId := some "r5" } : ChatData).videoId.getD
              "")).messages
          = (c2_state.chat_rooms
              (({ videoId := some "T", requestId := some "r5" } : ChatData).videoId.getD
                "")).messages
      ∧ (∀ v, v ≠ (({ videoId := some "T", requestId := some "r5" } : ChatData)).videoId.getD "" →
          ((handle_leave_chat c2_state
              { videoId := some "T", requestId := some "r5" } 1).2).chat_rooms v
            = c2_state.chat_rooms v)
      ∧ ((handle_leave_chat c2_state
            { videoId := some "T", requestId := some "r5" } 1).2).video_events
          = c2_state.video_events) :=
  ⟨rfl, by decide,
   leave_chat_idempotent Nat c2_state { videoId := some "T", requestId := some "r5" } 1
     rfl (by decide)⟩

end Aitube2
